import Mathlib

/-!
Shallow embedding of the `const-sha1` crate (src/lib.rs): a const-evaluable
SHA-1 implementation.  Machine integers (`u8`, `u32`, `u64`) are modelled as
`Nat` with explicit `% 2 ^ w` at the operations where Rust wraps; fallible
operations (array indexing, which panics when out of bounds) return `Option`.
Fixed-size byte arrays (`[u8; 64]`, `[u8; 128]`, `[u8; 1024]`) are modelled as
`List Nat` of the corresponding length; the 16-word `u32` block is modelled as
a function `Nat → Nat` read and written only at indices below 16, matching the
masked (`& 15`) index arithmetic of the source.
-/

/-- Working state of sha1: five `u32` words, as in `[u32; 5]`. -/
abbrev State5 := Nat × Nat × Nat × Nat × Nat

/-- Model of `u32::wrapping_add`. -/
def wrapping_add (x y : Nat) : Nat := (x + y) % 2 ^ 32

/-- Embedding of `rol`: `(value << bits) | (value >> (32 - bits))` on `u32`,
where the left shift wraps modulo `2 ^ 32`. -/
def rol (value : Nat) (bits : Nat) : Nat :=
  ((value <<< bits) % 2 ^ 32) ||| (value >>> (32 - bits))

/-- Embedding of `blk`: the message-schedule recurrence
`rol(block[(i+13) & 15] ^ block[(i+8) & 15] ^ block[(i+2) & 15] ^ block[i], 1)`. -/
def blk (block : Nat → Nat) (i : Nat) : Nat :=
  rol (block ((i + 13) &&& 15) ^^^ block ((i + 8) &&& 15) ^^^ block ((i + 2) &&& 15) ^^^ block i) 1

/-- Embedding of `r0` (rounds 0-15: no schedule expansion, f₁, k = 0x5a827999). -/
def r0 (block : Nat → Nat) (v w x y z : Nat) (i : Nat) : (Nat → Nat) × Nat × Nat :=
  let n := wrapping_add (wrapping_add (wrapping_add ((w &&& (x ^^^ y)) ^^^ y) (block i)) 0x5a827999) (rol v 5)
  (block, rol w 30, wrapping_add z n)

/-- Embedding of `r1` (rounds 16-19: schedule expansion, f₁, k = 0x5a827999). -/
def r1 (block : Nat → Nat) (v w x y z : Nat) (i : Nat) : (Nat → Nat) × Nat × Nat :=
  let block := Function.update block i (blk block i)
  let n := wrapping_add (wrapping_add (wrapping_add ((w &&& (x ^^^ y)) ^^^ y) (block i)) 0x5a827999) (rol v 5)
  (block, rol w 30, wrapping_add z n)

/-- Embedding of `r2` (rounds 20-39: schedule expansion, xor mix, k = 0x6ed9eba1). -/
def r2 (block : Nat → Nat) (v w x y z : Nat) (i : Nat) : (Nat → Nat) × Nat × Nat :=
  let block := Function.update block i (blk block i)
  let n := wrapping_add (wrapping_add (wrapping_add (w ^^^ x ^^^ y) (block i)) 0x6ed9eba1) (rol v 5)
  (block, rol w 30, wrapping_add z n)

/-- Embedding of `r3` (rounds 40-59: schedule expansion, majority mix, k = 0x8f1bbcdc). -/
def r3 (block : Nat → Nat) (v w x y z : Nat) (i : Nat) : (Nat → Nat) × Nat × Nat :=
  let block := Function.update block i (blk block i)
  let n := wrapping_add (wrapping_add (wrapping_add (((w ||| x) &&& y) ||| (w &&& x)) (block i)) 0x8f1bbcdc) (rol v 5)
  (block, rol w 30, wrapping_add z n)

/-- Embedding of `r4` (rounds 60-79: schedule expansion, xor mix, k = 0xca62c1d6). -/
def r4 (block : Nat → Nat) (v w x y z : Nat) (i : Nat) : (Nat → Nat) × Nat × Nat :=
  let block := Function.update block i (blk block i)
  let n := wrapping_add (wrapping_add (wrapping_add (w ^^^ x ^^^ y) (block i)) 0xca62c1d6) (rol v 5)
  (block, rol w 30, wrapping_add z n)

/-- Working tuple threaded through the 80 compression rounds: the block
schedule and the five working variables, in the argument order of the
current round call of the source. -/
abbrev RoundState := (Nat → Nat) × Nat × Nat × Nat × Nat × Nat

/-- Round 0 of `process_state`: `let (block, b, e) := r0(block, a, b, c, d, e, 0)`; the result carries the
variables in the argument order of the next call. -/
def round_0 (st : RoundState) : RoundState :=
  let (block, a, b, c, d, e) := st
  let (block, b, e) := r0 block a b c d e 0
  (block, e, a, b, c, d)

/-- Round 1 of `process_state`: `let (block, a, d) := r0(block, e, a, b, c, d, 1)`; the result carries the
variables in the argument order of the next call. -/
def round_1 (st : RoundState) : RoundState :=
  let (block, e, a, b, c, d) := st
  let (block, a, d) := r0 block e a b c d 1
  (block, d, e, a, b, c)

/-- Round 2 of `process_state`: `let (block, e, c) := r0(block, d, e, a, b, c, 2)`; the result carries the
variables in the argument order of the next call. -/
def round_2 (st : RoundState) : RoundState :=
  let (block, d, e, a, b, c) := st
  let (block, e, c) := r0 block d e a b c 2
  (block, c, d, e, a, b)

/-- Round 3 of `process_state`: `let (block, d, b) := r0(block, c, d, e, a, b, 3)`; the result carries the
variables in the argument order of the next call. -/
def round_3 (st : RoundState) : RoundState :=
  let (block, c, d, e, a, b) := st
  let (block, d, b) := r0 block c d e a b 3
  (block, b, c, d, e, a)

/-- Round 4 of `process_state`: `let (block, c, a) := r0(block, b, c, d, e, a, 4)`; the result carries the
variables in the argument order of the next call. -/
def round_4 (st : RoundState) : RoundState :=
  let (block, b, c, d, e, a) := st
  let (block, c, a) := r0 block b c d e a 4
  (block, a, b, c, d, e)

/-- Round 5 of `process_state`: `let (block, b, e) := r0(block, a, b, c, d, e, 5)`; the result carries the
variables in the argument order of the next call. -/
def round_5 (st : RoundState) : RoundState :=
  let (block, a, b, c, d, e) := st
  let (block, b, e) := r0 block a b c d e 5
  (block, e, a, b, c, d)

/-- Round 6 of `process_state`: `let (block, a, d) := r0(block, e, a, b, c, d, 6)`; the result carries the
variables in the argument order of the next call. -/
def round_6 (st : RoundState) : RoundState :=
  let (block, e, a, b, c, d) := st
  let (block, a, d) := r0 block e a b c d 6
  (block, d, e, a, b, c)

/-- Round 7 of `process_state`: `let (block, e, c) := r0(block, d, e, a, b, c, 7)`; the result carries the
variables in the argument order of the next call. -/
def round_7 (st : RoundState) : RoundState :=
  let (block, d, e, a, b, c) := st
  let (block, e, c) := r0 block d e a b c 7
  (block, c, d, e, a, b)

/-- Round 8 of `process_state`: `let (block, d, b) := r0(block, c, d, e, a, b, 8)`; the result carries the
variables in the argument order of the next call. -/
def round_8 (st : RoundState) : RoundState :=
  let (block, c, d, e, a, b) := st
  let (block, d, b) := r0 block c d e a b 8
  (block, b, c, d, e, a)

/-- Round 9 of `process_state`: `let (block, c, a) := r0(block, b, c, d, e, a, 9)`; the result carries the
variables in the argument order of the next call. -/
def round_9 (st : RoundState) : RoundState :=
  let (block, b, c, d, e, a) := st
  let (block, c, a) := r0 block b c d e a 9
  (block, a, b, c, d, e)

/-- Round 10 of `process_state`: `let (block, b, e) := r0(block, a, b, c, d, e, 10)`; the result carries the
variables in the argument order of the next call. -/
def round_10 (st : RoundState) : RoundState :=
  let (block, a, b, c, d, e) := st
  let (block, b, e) := r0 block a b c d e 10
  (block, e, a, b, c, d)

/-- Round 11 of `process_state`: `let (block, a, d) := r0(block, e, a, b, c, d, 11)`; the result carries the
variables in the argument order of the next call. -/
def round_11 (st : RoundState) : RoundState :=
  let (block, e, a, b, c, d) := st
  let (block, a, d) := r0 block e a b c d 11
  (block, d, e, a, b, c)

/-- Round 12 of `process_state`: `let (block, e, c) := r0(block, d, e, a, b, c, 12)`; the result carries the
variables in the argument order of the next call. -/
def round_12 (st : RoundState) : RoundState :=
  let (block, d, e, a, b, c) := st
  let (block, e, c) := r0 block d e a b c 12
  (block, c, d, e, a, b)

/-- Round 13 of `process_state`: `let (block, d, b) := r0(block, c, d, e, a, b, 13)`; the result carries the
variables in the argument order of the next call. -/
def round_13 (st : RoundState) : RoundState :=
  let (block, c, d, e, a, b) := st
  let (block, d, b) := r0 block c d e a b 13
  (block, b, c, d, e, a)

/-- Round 14 of `process_state`: `let (block, c, a) := r0(block, b, c, d, e, a, 14)`; the result carries the
variables in the argument order of the next call. -/
def round_14 (st : RoundState) : RoundState :=
  let (block, b, c, d, e, a) := st
  let (block, c, a) := r0 block b c d e a 14
  (block, a, b, c, d, e)

/-- Round 15 of `process_state`: `let (block, b, e) := r0(block, a, b, c, d, e, 15)`; the result carries the
variables in the argument order of the next call. -/
def round_15 (st : RoundState) : RoundState :=
  let (block, a, b, c, d, e) := st
  let (block, b, e) := r0 block a b c d e 15
  (block, e, a, b, c, d)

/-- Round 16 of `process_state`: `let (block, a, d) := r1(block, e, a, b, c, d, 0)`; the result carries the
variables in the argument order of the next call. -/
def round_16 (st : RoundState) : RoundState :=
  let (block, e, a, b, c, d) := st
  let (block, a, d) := r1 block e a b c d 0
  (block, d, e, a, b, c)

/-- Round 17 of `process_state`: `let (block, e, c) := r1(block, d, e, a, b, c, 1)`; the result carries the
variables in the argument order of the next call. -/
def round_17 (st : RoundState) : RoundState :=
  let (block, d, e, a, b, c) := st
  let (block, e, c) := r1 block d e a b c 1
  (block, c, d, e, a, b)

/-- Round 18 of `process_state`: `let (block, d, b) := r1(block, c, d, e, a, b, 2)`; the result carries the
variables in the argument order of the next call. -/
def round_18 (st : RoundState) : RoundState :=
  let (block, c, d, e, a, b) := st
  let (block, d, b) := r1 block c d e a b 2
  (block, b, c, d, e, a)

/-- Round 19 of `process_state`: `let (block, c, a) := r1(block, b, c, d, e, a, 3)`; the result carries the
variables in the argument order of the next call. -/
def round_19 (st : RoundState) : RoundState :=
  let (block, b, c, d, e, a) := st
  let (block, c, a) := r1 block b c d e a 3
  (block, a, b, c, d, e)

/-- Round 20 of `process_state`: `let (block, b, e) := r2(block, a, b, c, d, e, 4)`; the result carries the
variables in the argument order of the next call. -/
def round_20 (st : RoundState) : RoundState :=
  let (block, a, b, c, d, e) := st
  let (block, b, e) := r2 block a b c d e 4
  (block, e, a, b, c, d)

/-- Round 21 of `process_state`: `let (block, a, d) := r2(block, e, a, b, c, d, 5)`; the result carries the
variables in the argument order of the next call. -/
def round_21 (st : RoundState) : RoundState :=
  let (block, e, a, b, c, d) := st
  let (block, a, d) := r2 block e a b c d 5
  (block, d, e, a, b, c)

/-- Round 22 of `process_state`: `let (block, e, c) := r2(block, d, e, a, b, c, 6)`; the result carries the
variables in the argument order of the next call. -/
def round_22 (st : RoundState) : RoundState :=
  let (block, d, e, a, b, c) := st
  let (block, e, c) := r2 block d e a b c 6
  (block, c, d, e, a, b)

/-- Round 23 of `process_state`: `let (block, d, b) := r2(block, c, d, e, a, b, 7)`; the result carries the
variables in the argument order of the next call. -/
def round_23 (st : RoundState) : RoundState :=
  let (block, c, d, e, a, b) := st
  let (block, d, b) := r2 block c d e a b 7
  (block, b, c, d, e, a)

/-- Round 24 of `process_state`: `let (block, c, a) := r2(block, b, c, d, e, a, 8)`; the result carries the
variables in the argument order of the next call. -/
def round_24 (st : RoundState) : RoundState :=
  let (block, b, c, d, e, a) := st
  let (block, c, a) := r2 block b c d e a 8
  (block, a, b, c, d, e)

/-- Round 25 of `process_state`: `let (block, b, e) := r2(block, a, b, c, d, e, 9)`; the result carries the
variables in the argument order of the next call. -/
def round_25 (st : RoundState) : RoundState :=
  let (block, a, b, c, d, e) := st
  let (block, b, e) := r2 block a b c d e 9
  (block, e, a, b, c, d)

/-- Round 26 of `process_state`: `let (block, a, d) := r2(block, e, a, b, c, d, 10)`; the result carries the
variables in the argument order of the next call. -/
def round_26 (st : RoundState) : RoundState :=
  let (block, e, a, b, c, d) := st
  let (block, a, d) := r2 block e a b c d 10
  (block, d, e, a, b, c)

/-- Round 27 of `process_state`: `let (block, e, c) := r2(block, d, e, a, b, c, 11)`; the result carries the
variables in the argument order of the next call. -/
def round_27 (st : RoundState) : RoundState :=
  let (block, d, e, a, b, c) := st
  let (block, e, c) := r2 block d e a b c 11
  (block, c, d, e, a, b)

/-- Round 28 of `process_state`: `let (block, d, b) := r2(block, c, d, e, a, b, 12)`; the result carries the
variables in the argument order of the next call. -/
def round_28 (st : RoundState) : RoundState :=
  let (block, c, d, e, a, b) := st
  let (block, d, b) := r2 block c d e a b 12
  (block, b, c, d, e, a)

/-- Round 29 of `process_state`: `let (block, c, a) := r2(block, b, c, d, e, a, 13)`; the result carries the
variables in the argument order of the next call. -/
def round_29 (st : RoundState) : RoundState :=
  let (block, b, c, d, e, a) := st
  let (block, c, a) := r2 block b c d e a 13
  (block, a, b, c, d, e)

/-- Round 30 of `process_state`: `let (block, b, e) := r2(block, a, b, c, d, e, 14)`; the result carries the
variables in the argument order of the next call. -/
def round_30 (st : RoundState) : RoundState :=
  let (block, a, b, c, d, e) := st
  let (block, b, e) := r2 block a b c d e 14
  (block, e, a, b, c, d)

/-- Round 31 of `process_state`: `let (block, a, d) := r2(block, e, a, b, c, d, 15)`; the result carries the
variables in the argument order of the next call. -/
def round_31 (st : RoundState) : RoundState :=
  let (block, e, a, b, c, d) := st
  let (block, a, d) := r2 block e a b c d 15
  (block, d, e, a, b, c)

/-- Round 32 of `process_state`: `let (block, e, c) := r2(block, d, e, a, b, c, 0)`; the result carries the
variables in the argument order of the next call. -/
def round_32 (st : RoundState) : RoundState :=
  let (block, d, e, a, b, c) := st
  let (block, e, c) := r2 block d e a b c 0
  (block, c, d, e, a, b)

/-- Round 33 of `process_state`: `let (block, d, b) := r2(block, c, d, e, a, b, 1)`; the result carries the
variables in the argument order of the next call. -/
def round_33 (st : RoundState) : RoundState :=
  let (block, c, d, e, a, b) := st
  let (block, d, b) := r2 block c d e a b 1
  (block, b, c, d, e, a)

/-- Round 34 of `process_state`: `let (block, c, a) := r2(block, b, c, d, e, a, 2)`; the result carries the
variables in the argument order of the next call. -/
def round_34 (st : RoundState) : RoundState :=
  let (block, b, c, d, e, a) := st
  let (block, c, a) := r2 block b c d e a 2
  (block, a, b, c, d, e)

/-- Round 35 of `process_state`: `let (block, b, e) := r2(block, a, b, c, d, e, 3)`; the result carries the
variables in the argument order of the next call. -/
def round_35 (st : RoundState) : RoundState :=
  let (block, a, b, c, d, e) := st
  let (block, b, e) := r2 block a b c d e 3
  (block, e, a, b, c, d)

/-- Round 36 of `process_state`: `let (block, a, d) := r2(block, e, a, b, c, d, 4)`; the result carries the
variables in the argument order of the next call. -/
def round_36 (st : RoundState) : RoundState :=
  let (block, e, a, b, c, d) := st
  let (block, a, d) := r2 block e a b c d 4
  (block, d, e, a, b, c)

/-- Round 37 of `process_state`: `let (block, e, c) := r2(block, d, e, a, b, c, 5)`; the result carries the
variables in the argument order of the next call. -/
def round_37 (st : RoundState) : RoundState :=
  let (block, d, e, a, b, c) := st
  let (block, e, c) := r2 block d e a b c 5
  (block, c, d, e, a, b)

/-- Round 38 of `process_state`: `let (block, d, b) := r2(block, c, d, e, a, b, 6)`; the result carries the
variables in the argument order of the next call. -/
def round_38 (st : RoundState) : RoundState :=
  let (block, c, d, e, a, b) := st
  let (block, d, b) := r2 block c d e a b 6
  (block, b, c, d, e, a)

/-- Round 39 of `process_state`: `let (block, c, a) := r2(block, b, c, d, e, a, 7)`; the result carries the
variables in the argument order of the next call. -/
def round_39 (st : RoundState) : RoundState :=
  let (block, b, c, d, e, a) := st
  let (block, c, a) := r2 block b c d e a 7
  (block, a, b, c, d, e)

/-- Round 40 of `process_state`: `let (block, b, e) := r3(block, a, b, c, d, e, 8)`; the result carries the
variables in the argument order of the next call. -/
def round_40 (st : RoundState) : RoundState :=
  let (block, a, b, c, d, e) := st
  let (block, b, e) := r3 block a b c d e 8
  (block, e, a, b, c, d)

/-- Round 41 of `process_state`: `let (block, a, d) := r3(block, e, a, b, c, d, 9)`; the result carries the
variables in the argument order of the next call. -/
def round_41 (st : RoundState) : RoundState :=
  let (block, e, a, b, c, d) := st
  let (block, a, d) := r3 block e a b c d 9
  (block, d, e, a, b, c)

/-- Round 42 of `process_state`: `let (block, e, c) := r3(block, d, e, a, b, c, 10)`; the result carries the
variables in the argument order of the next call. -/
def round_42 (st : RoundState) : RoundState :=
  let (block, d, e, a, b, c) := st
  let (block, e, c) := r3 block d e a b c 10
  (block, c, d, e, a, b)

/-- Round 43 of `process_state`: `let (block, d, b) := r3(block, c, d, e, a, b, 11)`; the result carries the
variables in the argument order of the next call. -/
def round_43 (st : RoundState) : RoundState :=
  let (block, c, d, e, a, b) := st
  let (block, d, b) := r3 block c d e a b 11
  (block, b, c, d, e, a)

/-- Round 44 of `process_state`: `let (block, c, a) := r3(block, b, c, d, e, a, 12)`; the result carries the
variables in the argument order of the next call. -/
def round_44 (st : RoundState) : RoundState :=
  let (block, b, c, d, e, a) := st
  let (block, c, a) := r3 block b c d e a 12
  (block, a, b, c, d, e)

/-- Round 45 of `process_state`: `let (block, b, e) := r3(block, a, b, c, d, e, 13)`; the result carries the
variables in the argument order of the next call. -/
def round_45 (st : RoundState) : RoundState :=
  let (block, a, b, c, d, e) := st
  let (block, b, e) := r3 block a b c d e 13
  (block, e, a, b, c, d)

/-- Round 46 of `process_state`: `let (block, a, d) := r3(block, e, a, b, c, d, 14)`; the result carries the
variables in the argument order of the next call. -/
def round_46 (st : RoundState) : RoundState :=
  let (block, e, a, b, c, d) := st
  let (block, a, d) := r3 block e a b c d 14
  (block, d, e, a, b, c)

/-- Round 47 of `process_state`: `let (block, e, c) := r3(block, d, e, a, b, c, 15)`; the result carries the
variables in the argument order of the next call. -/
def round_47 (st : RoundState) : RoundState :=
  let (block, d, e, a, b, c) := st
  let (block, e, c) := r3 block d e a b c 15
  (block, c, d, e, a, b)

/-- Round 48 of `process_state`: `let (block, d, b) := r3(block, c, d, e, a, b, 0)`; the result carries the
variables in the argument order of the next call. -/
def round_48 (st : RoundState) : RoundState :=
  let (block, c, d, e, a, b) := st
  let (block, d, b) := r3 block c d e a b 0
  (block, b, c, d, e, a)

/-- Round 49 of `process_state`: `let (block, c, a) := r3(block, b, c, d, e, a, 1)`; the result carries the
variables in the argument order of the next call. -/
def round_49 (st : RoundState) : RoundState :=
  let (block, b, c, d, e, a) := st
  let (block, c, a) := r3 block b c d e a 1
  (block, a, b, c, d, e)

/-- Round 50 of `process_state`: `let (block, b, e) := r3(block, a, b, c, d, e, 2)`; the result carries the
variables in the argument order of the next call. -/
def round_50 (st : RoundState) : RoundState :=
  let (block, a, b, c, d, e) := st
  let (block, b, e) := r3 block a b c d e 2
  (block, e, a, b, c, d)

/-- Round 51 of `process_state`: `let (block, a, d) := r3(block, e, a, b, c, d, 3)`; the result carries the
variables in the argument order of the next call. -/
def round_51 (st : RoundState) : RoundState :=
  let (block, e, a, b, c, d) := st
  let (block, a, d) := r3 block e a b c d 3
  (block, d, e, a, b, c)

/-- Round 52 of `process_state`: `let (block, e, c) := r3(block, d, e, a, b, c, 4)`; the result carries the
variables in the argument order of the next call. -/
def round_52 (st : RoundState) : RoundState :=
  let (block, d, e, a, b, c) := st
  let (block, e, c) := r3 block d e a b c 4
  (block, c, d, e, a, b)

/-- Round 53 of `process_state`: `let (block, d, b) := r3(block, c, d, e, a, b, 5)`; the result carries the
variables in the argument order of the next call. -/
def round_53 (st : RoundState) : RoundState :=
  let (block, c, d, e, a, b) := st
  let (block, d, b) := r3 block c d e a b 5
  (block, b, c, d, e, a)

/-- Round 54 of `process_state`: `let (block, c, a) := r3(block, b, c, d, e, a, 6)`; the result carries the
variables in the argument order of the next call. -/
def round_54 (st : RoundState) : RoundState :=
  let (block, b, c, d, e, a) := st
  let (block, c, a) := r3 block b c d e a 6
  (block, a, b, c, d, e)

/-- Round 55 of `process_state`: `let (block, b, e) := r3(block, a, b, c, d, e, 7)`; the result carries the
variables in the argument order of the next call. -/
def round_55 (st : RoundState) : RoundState :=
  let (block, a, b, c, d, e) := st
  let (block, b, e) := r3 block a b c d e 7
  (block, e, a, b, c, d)

/-- Round 56 of `process_state`: `let (block, a, d) := r3(block, e, a, b, c, d, 8)`; the result carries the
variables in the argument order of the next call. -/
def round_56 (st : RoundState) : RoundState :=
  let (block, e, a, b, c, d) := st
  let (block, a, d) := r3 block e a b c d 8
  (block, d, e, a, b, c)

/-- Round 57 of `process_state`: `let (block, e, c) := r3(block, d, e, a, b, c, 9)`; the result carries the
variables in the argument order of the next call. -/
def round_57 (st : RoundState) : RoundState :=
  let (block, d, e, a, b, c) := st
  let (block, e, c) := r3 block d e a b c 9
  (block, c, d, e, a, b)

/-- Round 58 of `process_state`: `let (block, d, b) := r3(block, c, d, e, a, b, 10)`; the result carries the
variables in the argument order of the next call. -/
def round_58 (st : RoundState) : RoundState :=
  let (block, c, d, e, a, b) := st
  let (block, d, b) := r3 block c d e a b 10
  (block, b, c, d, e, a)

/-- Round 59 of `process_state`: `let (block, c, a) := r3(block, b, c, d, e, a, 11)`; the result carries the
variables in the argument order of the next call. -/
def round_59 (st : RoundState) : RoundState :=
  let (block, b, c, d, e, a) := st
  let (block, c, a) := r3 block b c d e a 11
  (block, a, b, c, d, e)

/-- Round 60 of `process_state`: `let (block, b, e) := r4(block, a, b, c, d, e, 12)`; the result carries the
variables in the argument order of the next call. -/
def round_60 (st : RoundState) : RoundState :=
  let (block, a, b, c, d, e) := st
  let (block, b, e) := r4 block a b c d e 12
  (block, e, a, b, c, d)

/-- Round 61 of `process_state`: `let (block, a, d) := r4(block, e, a, b, c, d, 13)`; the result carries the
variables in the argument order of the next call. -/
def round_61 (st : RoundState) : RoundState :=
  let (block, e, a, b, c, d) := st
  let (block, a, d) := r4 block e a b c d 13
  (block, d, e, a, b, c)

/-- Round 62 of `process_state`: `let (block, e, c) := r4(block, d, e, a, b, c, 14)`; the result carries the
variables in the argument order of the next call. -/
def round_62 (st : RoundState) : RoundState :=
  let (block, d, e, a, b, c) := st
  let (block, e, c) := r4 block d e a b c 14
  (block, c, d, e, a, b)

/-- Round 63 of `process_state`: `let (block, d, b) := r4(block, c, d, e, a, b, 15)`; the result carries the
variables in the argument order of the next call. -/
def round_63 (st : RoundState) : RoundState :=
  let (block, c, d, e, a, b) := st
  let (block, d, b) := r4 block c d e a b 15
  (block, b, c, d, e, a)

/-- Round 64 of `process_state`: `let (block, c, a) := r4(block, b, c, d, e, a, 0)`; the result carries the
variables in the argument order of the next call. -/
def round_64 (st : RoundState) : RoundState :=
  let (block, b, c, d, e, a) := st
  let (block, c, a) := r4 block b c d e a 0
  (block, a, b, c, d, e)

/-- Round 65 of `process_state`: `let (block, b, e) := r4(block, a, b, c, d, e, 1)`; the result carries the
variables in the argument order of the next call. -/
def round_65 (st : RoundState) : RoundState :=
  let (block, a, b, c, d, e) := st
  let (block, b, e) := r4 block a b c d e 1
  (block, e, a, b, c, d)

/-- Round 66 of `process_state`: `let (block, a, d) := r4(block, e, a, b, c, d, 2)`; the result carries the
variables in the argument order of the next call. -/
def round_66 (st : RoundState) : RoundState :=
  let (block, e, a, b, c, d) := st
  let (block, a, d) := r4 block e a b c d 2
  (block, d, e, a, b, c)

/-- Round 67 of `process_state`: `let (block, e, c) := r4(block, d, e, a, b, c, 3)`; the result carries the
variables in the argument order of the next call. -/
def round_67 (st : RoundState) : RoundState :=
  let (block, d, e, a, b, c) := st
  let (block, e, c) := r4 block d e a b c 3
  (block, c, d, e, a, b)

/-- Round 68 of `process_state`: `let (block, d, b) := r4(block, c, d, e, a, b, 4)`; the result carries the
variables in the argument order of the next call. -/
def round_68 (st : RoundState) : RoundState :=
  let (block, c, d, e, a, b) := st
  let (block, d, b) := r4 block c d e a b 4
  (block, b, c, d, e, a)

/-- Round 69 of `process_state`: `let (block, c, a) := r4(block, b, c, d, e, a, 5)`; the result carries the
variables in the argument order of the next call. -/
def round_69 (st : RoundState) : RoundState :=
  let (block, b, c, d, e, a) := st
  let (block, c, a) := r4 block b c d e a 5
  (block, a, b, c, d, e)

/-- Round 70 of `process_state`: `let (block, b, e) := r4(block, a, b, c, d, e, 6)`; the result carries the
variables in the argument order of the next call. -/
def round_70 (st : RoundState) : RoundState :=
  let (block, a, b, c, d, e) := st
  let (block, b, e) := r4 block a b c d e 6
  (block, e, a, b, c, d)

/-- Round 71 of `process_state`: `let (block, a, d) := r4(block, e, a, b, c, d, 7)`; the result carries the
variables in the argument order of the next call. -/
def round_71 (st : RoundState) : RoundState :=
  let (block, e, a, b, c, d) := st
  let (block, a, d) := r4 block e a b c d 7
  (block, d, e, a, b, c)

/-- Round 72 of `process_state`: `let (block, e, c) := r4(block, d, e, a, b, c, 8)`; the result carries the
variables in the argument order of the next call. -/
def round_72 (st : RoundState) : RoundState :=
  let (block, d, e, a, b, c) := st
  let (block, e, c) := r4 block d e a b c 8
  (block, c, d, e, a, b)

/-- Round 73 of `process_state`: `let (block, d, b) := r4(block, c, d, e, a, b, 9)`; the result carries the
variables in the argument order of the next call. -/
def round_73 (st : RoundState) : RoundState :=
  let (block, c, d, e, a, b) := st
  let (block, d, b) := r4 block c d e a b 9
  (block, b, c, d, e, a)

/-- Round 74 of `process_state`: `let (block, c, a) := r4(block, b, c, d, e, a, 10)`; the result carries the
variables in the argument order of the next call. -/
def round_74 (st : RoundState) : RoundState :=
  let (block, b, c, d, e, a) := st
  let (block, c, a) := r4 block b c d e a 10
  (block, a, b, c, d, e)

/-- Round 75 of `process_state`: `let (block, b, e) := r4(block, a, b, c, d, e, 11)`; the result carries the
variables in the argument order of the next call. -/
def round_75 (st : RoundState) : RoundState :=
  let (block, a, b, c, d, e) := st
  let (block, b, e) := r4 block a b c d e 11
  (block, e, a, b, c, d)

/-- Round 76 of `process_state`: `let (block, a, d) := r4(block, e, a, b, c, d, 12)`; the result carries the
variables in the argument order of the next call. -/
def round_76 (st : RoundState) : RoundState :=
  let (block, e, a, b, c, d) := st
  let (block, a, d) := r4 block e a b c d 12
  (block, d, e, a, b, c)

/-- Round 77 of `process_state`: `let (block, e, c) := r4(block, d, e, a, b, c, 13)`; the result carries the
variables in the argument order of the next call. -/
def round_77 (st : RoundState) : RoundState :=
  let (block, d, e, a, b, c) := st
  let (block, e, c) := r4 block d e a b c 13
  (block, c, d, e, a, b)

/-- Round 78 of `process_state`: `let (block, d, b) := r4(block, c, d, e, a, b, 14)`; the result carries the
variables in the argument order of the next call. -/
def round_78 (st : RoundState) : RoundState :=
  let (block, c, d, e, a, b) := st
  let (block, d, b) := r4 block c d e a b 14
  (block, b, c, d, e, a)

/-- Round 79 of `process_state`: `let (_, c, a) := r4(block, b, c, d, e, a, 15)`; the result carries the
variables in the argument order of the next call. -/
def round_79 (st : RoundState) : RoundState :=
  let (block, b, c, d, e, a) := st
  let (block, c, a) := r4 block b c d e a 15
  (block, a, b, c, d, e)

/-- Embedding of `process_state`: copy the five state words into the working
variables, run the 80 unrolled rounds in source order, then add the working
variables back into the state words with `wrapping_add`. -/
def process_state (state : State5) (block : Nat → Nat) : State5 :=
  let (s0, s1, s2, s3, s4) := state
  let a := s0
  let b := s1
  let c := s2
  let d := s3
  let e := s4
  let fin :=
    round_79
    (round_78
    (round_77
    (round_76
    (round_75
    (round_74
    (round_73
    (round_72
    (round_71
    (round_70
    (round_69
    (round_68
    (round_67
    (round_66
    (round_65
    (round_64
    (round_63
    (round_62
    (round_61
    (round_60
    (round_59
    (round_58
    (round_57
    (round_56
    (round_55
    (round_54
    (round_53
    (round_52
    (round_51
    (round_50
    (round_49
    (round_48
    (round_47
    (round_46
    (round_45
    (round_44
    (round_43
    (round_42
    (round_41
    (round_40
    (round_39
    (round_38
    (round_37
    (round_36
    (round_35
    (round_34
    (round_33
    (round_32
    (round_31
    (round_30
    (round_29
    (round_28
    (round_27
    (round_26
    (round_25
    (round_24
    (round_23
    (round_22
    (round_21
    (round_20
    (round_19
    (round_18
    (round_17
    (round_16
    (round_15
    (round_14
    (round_13
    (round_12
    (round_11
    (round_10
    (round_9
    (round_8
    (round_7
    (round_6
    (round_5
    (round_4
    (round_3
    (round_2
    (round_1
    (round_0
    ((block, a, b, c, d, e)))))))))))))))))))))))))))))))))))))))))))))))))))))))))))))))))))))))))))))))))
  (wrapping_add s0 fin.2.1, wrapping_add s1 fin.2.2.1, wrapping_add s2 fin.2.2.2.1,
    wrapping_add s3 fin.2.2.2.2.1, wrapping_add s4 fin.2.2.2.2.2)

/-!
Specification-level description of one compression call, written from the
words of the specification (for the refinement claim about `process_state`):
80 rounds indexed 0..79 in four 20-round stages, each with its mixing function
and constant; for rounds `i ≥ 16` the schedule word at index `i mod 16` is
replaced before use by the rotate-xor recurrence; each round computes
`temp = rol(a,5) + f + e + k + w[i mod 16] (mod 2^32)` and rotates the five
working variables; after 80 rounds the working variables are added back into
the state words modulo `2^32`.
-/

/-- Stage mixing function of standard SHA-1, per the specification. -/
def spec_f (i b c d : Nat) : Nat :=
  if i < 20 then (b &&& (c ^^^ d)) ^^^ d
  else if i < 40 then b ^^^ c ^^^ d
  else if i < 60 then ((b ||| c) &&& d) ||| (b &&& c)
  else b ^^^ c ^^^ d

/-- Stage additive constant of standard SHA-1, per the specification. -/
def spec_k (i : Nat) : Nat :=
  if i < 20 then 0x5a827999
  else if i < 40 then 0x6ed9eba1
  else if i < 60 then 0x8f1bbcdc
  else 0xca62c1d6

/-- One specification-level round: schedule replacement (for `i ≥ 16`), then
`temp = rol(a,5) + f + e + k + w[i mod 16]` modulo `2^32`, then the rotation
`(a, b, c, d, e) := (temp, a, rol(b, 30), c, d)`. -/
def spec_round (i : Nat) (st : (Nat → Nat) × Nat × Nat × Nat × Nat × Nat) :
    (Nat → Nat) × Nat × Nat × Nat × Nat × Nat :=
  match st with
  | (w, a, b, c, d, e) =>
    let w := if 16 ≤ i then
        Function.update w (i % 16)
          (rol (w ((i + 13) % 16) ^^^ w ((i + 8) % 16) ^^^ w ((i + 2) % 16) ^^^ w (i % 16)) 1)
      else w
    let temp := (rol a 5 + spec_f i b c d + e + spec_k i + w (i % 16)) % 2 ^ 32
    (w, temp, a, rol b 30, c, d)

/-- Iterate `spec_round` for `fuel` rounds starting at round index `i`. -/
def spec_rounds : Nat → Nat → (Nat → Nat) × Nat × Nat × Nat × Nat × Nat →
    (Nat → Nat) × Nat × Nat × Nat × Nat × Nat
  | 0, _, st => st
  | fuel + 1, i, st => spec_rounds fuel (i + 1) (spec_round i st)

/-- The explicit 80-round chain of `spec_round`, rounds 0 through 79. -/
def spec_chain (st : RoundState) : RoundState :=
  spec_round 79
    (spec_round 78
    (spec_round 77
    (spec_round 76
    (spec_round 75
    (spec_round 74
    (spec_round 73
    (spec_round 72
    (spec_round 71
    (spec_round 70
    (spec_round 69
    (spec_round 68
    (spec_round 67
    (spec_round 66
    (spec_round 65
    (spec_round 64
    (spec_round 63
    (spec_round 62
    (spec_round 61
    (spec_round 60
    (spec_round 59
    (spec_round 58
    (spec_round 57
    (spec_round 56
    (spec_round 55
    (spec_round 54
    (spec_round 53
    (spec_round 52
    (spec_round 51
    (spec_round 50
    (spec_round 49
    (spec_round 48
    (spec_round 47
    (spec_round 46
    (spec_round 45
    (spec_round 44
    (spec_round 43
    (spec_round 42
    (spec_round 41
    (spec_round 40
    (spec_round 39
    (spec_round 38
    (spec_round 37
    (spec_round 36
    (spec_round 35
    (spec_round 34
    (spec_round 33
    (spec_round 32
    (spec_round 31
    (spec_round 30
    (spec_round 29
    (spec_round 28
    (spec_round 27
    (spec_round 26
    (spec_round 25
    (spec_round 24
    (spec_round 23
    (spec_round 22
    (spec_round 21
    (spec_round 20
    (spec_round 19
    (spec_round 18
    (spec_round 17
    (spec_round 16
    (spec_round 15
    (spec_round 14
    (spec_round 13
    (spec_round 12
    (spec_round 11
    (spec_round 10
    (spec_round 9
    (spec_round 8
    (spec_round 7
    (spec_round 6
    (spec_round 5
    (spec_round 4
    (spec_round 3
    (spec_round 2
    (spec_round 1
    (spec_round 0
    (st))))))))))))))))))))))))))))))))))))))))))))))))))))))))))))))))))))))))))))))))

/-- Specification-level compression: copy the state into the working
variables, run rounds 0..79, add the result back modulo `2^32`. -/
def process_state_spec (state : State5) (block : Nat → Nat) : State5 :=
  let (s0, s1, s2, s3, s4) := state
  let fin := spec_rounds 80 0 (block, s0, s1, s2, s3, s4)
  ((s0 + fin.2.1) % 2 ^ 32, (s1 + fin.2.2.1) % 2 ^ 32, (s2 + fin.2.2.2.1) % 2 ^ 32,
    (s3 + fin.2.2.2.2.1) % 2 ^ 32, (s4 + fin.2.2.2.2.2) % 2 ^ 32)

/-!  Fallible primitives: `u8`-array reads and writes. -/

/-- Checked read `a[i]` of a byte array: `none` models the Rust index panic. -/
def getC (l : List Nat) (i : Nat) : Option Nat := l[i]?

/-- Checked write `a[i] = v` of a byte array: `none` models the Rust index panic. -/
def setC (l : List Nat) (i : Nat) (v : Nat) : Option (List Nat) :=
  if i < l.length then some (l.set i v) else none

/-- Common copy loop `while i < amount { data[dstOff + i] = slice[srcOff + i] }`,
shared body of `clone_from_slice_64`, `clone_from_slice_128`, `clone_slice_128`
and `ConstSlice::push_amount`; `fuel` counts the remaining iterations. -/
def copy_go (slice : List Nat) (srcOff dstOff : Nat) : Nat → Nat → List Nat → Option (List Nat)
  | 0, _, data => some data
  | fuel + 1, i, data =>
    match getC slice (srcOff + i) with
    | none => none
    | some b =>
      match setC data (dstOff + i) b with
      | none => none
      | some d => copy_go slice srcOff dstOff fuel (i + 1) d

/-- Embedding of the inner `as_block` loop: pack bytes
`input[offset + 4i .. offset + 4i + 3]` big-endian into word `i`, for the
remaining `fuel` of the 16 iterations. -/
def as_block_go (input : List Nat) (offset : Nat) : Nat → Nat → (Nat → Nat) → Option (Nat → Nat)
  | 0, _, result => some result
  | fuel + 1, i, result =>
    match getC input (offset + i * 4 + 3) with
    | none => none
    | some b3 =>
      match getC input (offset + i * 4 + 2) with
      | none => none
      | some b2 =>
        match getC input (offset + i * 4 + 1) with
        | none => none
        | some b1 =>
          match getC input (offset + i * 4 + 0) with
          | none => none
          | some b0 =>
            as_block_go input offset fuel (i + 1)
              (Function.update result i
                (0 ||| (b3 <<< 0) ||| (b2 <<< 8) ||| (b1 <<< 16) ||| (b0 <<< 24)))

/-- Embedding of `as_block` (identical inner helper of both `process_blocks`
and `digest`): pack 64 bytes starting at `offset` into sixteen big-endian
`u32` words. -/
def as_block (input : List Nat) (offset : Nat) : Option (Nat → Nat) :=
  as_block_go input offset 16 0 (fun _ => 0)

/-- Embedding of `clone_from_slice_64`: copy `slice[offset..offset+num_elems]`
into the front of a 64-byte array. -/
def clone_from_slice_64 (data : List Nat) (slice : List Nat) (offset num_elems : Nat) :
    Option (List Nat) :=
  copy_go slice offset 0 num_elems 0 data

/-- Embedding of `clone_from_slice_128`: copy `slice[offset..offset+num_elems]`
into the front of a 128-byte array. -/
def clone_from_slice_128 (data : List Nat) (slice : List Nat) (offset num_elems : Nat) :
    Option (List Nat) :=
  copy_go slice offset 0 num_elems 0 data

/-- Embedding of `clone_slice_128`: copy all of `slice` into a 128-byte array
starting at `offset`. -/
def clone_slice_128 (data : List Nat) (slice : List Nat) (offset : Nat) : Option (List Nat) :=
  copy_go slice 0 offset slice.length 0 data

/-- The `Blocks` struct: the retained tail (`len` valid bytes in a 64-byte buffer). -/
structure Blocks where
  len : Nat
  data : List Nat
deriving DecidableEq

/-- Embedding of the `process_blocks` while-loop.  `fuel` bounds the number of
iterations; each iteration consumes a full 64-byte chunk or retains the final
partial chunk and stops.  The loop runs at most `data_len / 64 + 1` iterations,
so any `fuel` that large makes the embedding exact. -/
def process_blocks_go (data : List Nat) (data_len : Nat) :
    Nat → Blocks → State5 → Nat → Option (Blocks × Nat × State5)
  | fuel, blocks, state, len =>
    if len < data_len then
      match fuel with
      | 0 => none
      | fuel + 1 =>
        let left := data_len - len
        if 64 ≤ left then
          match as_block data len with
          | none => none
          | some chunk_block =>
            process_blocks_go data data_len fuel blocks (process_state state chunk_block) (len + 64)
        else
          match clone_from_slice_64 blocks.data data len left with
          | none => none
          | some bd => some ({ len := left, data := bd }, len, state)
    else
      some (blocks, len, state)

/-- Embedding of `process_blocks`: split `data[0..data_len]` into 64-byte
chunks, compress each, and retain the remaining tail in `blocks`. -/
def process_blocks (blocks : Blocks) (data : List Nat) (data_len : Nat) (state : State5) :
    Option (Blocks × Nat × State5) :=
  process_blocks_go data data_len (data_len + 1) blocks state 0

/-- The `Digest` struct: five `u32` state words. -/
structure Digest where
  data : State5
deriving DecidableEq

/-- The 8-byte big-endian encoding of the `u64` bit length, the `extra` array
of `digest`. -/
def bit_length_bytes (bits : Nat) : List Nat :=
  [(bits >>> 56) % 256, (bits >>> 48) % 256, (bits >>> 40) % 256, (bits >>> 32) % 256,
    (bits >>> 24) % 256, (bits >>> 16) % 256, (bits >>> 8) % 256, (bits >>> 0) % 256]

/-- The padded final-block material, as described by the specification: the
retained tail, one `0x80` byte, zero padding through byte index `z`, then the
8-byte big-endian bit length (`z = 55` gives the single 64-byte final block,
`z = 119` the two 64-byte final blocks). -/
def final_pad (blocks : Blocks) (z : Nat) (bits : Nat) : List Nat :=
  blocks.data.take blocks.len ++ 0x80 :: (List.replicate (z - blocks.len) 0 ++ bit_length_bytes bits)

/-- Embedding of `digest`: append `0x80` after the retained tail inside a
zeroed 128-byte buffer, place the bit length, and run one or two final
compression calls depending on whether the tail fits below 56 bytes. -/
def digest (state : State5) (len : Nat) (blocks : Blocks) : Option Digest :=
  let bits := ((len + blocks.len) * 8) % 2 ^ 64
  let extra := bit_length_bytes bits
  let blocklen := blocks.len
  match clone_from_slice_128 (List.replicate 128 0) blocks.data 0 blocklen with
  | none => none
  | some last =>
    match setC last blocklen 0x80 with
    | none => none
    | some last =>
      if blocklen < 56 then
        match clone_slice_128 last extra 56 with
        | none => none
        | some last =>
          match as_block last 0 with
          | none => none
          | some b0 => some ⟨process_state state b0⟩
      else
        match clone_slice_128 last extra 120 with
        | none => none
        | some last =>
          match as_block last 0 with
          | none => none
          | some b0 =>
            match as_block last 64 with
            | none => none
            | some b1 => some ⟨process_state (process_state state b0) b1⟩

/-- Embedding of `sha1`: initial state, process full blocks, then pad and finish. -/
def sha1 (data : List Nat) : Option Digest :=
  let state : State5 := (0x67452301, 0xefcdab89, 0x98badcfe, 0x10325476, 0xc3d2e1f0)
  let blocks : Blocks := { len := 0, data := List.replicate 64 0 }
  match process_blocks blocks data data.length state with
  | none => none
  | some (blocks, len, state) => digest state len blocks

/-!  The `ConstSlice` fixed-capacity buffer. -/

/-- The `BUFFER_SIZE` capacity constant. -/
def BUFFER_SIZE : Nat := 1024

/-- The `ConstSlice` struct: a 1024-byte backing array and a write cursor. -/
structure ConstSlice where
  data : List Nat
  head : Nat
deriving DecidableEq

/-- Embedding of `ConstSlice::new`: zeroed backing array, cursor 0. -/
def ConstSlice.new : ConstSlice :=
  { data := List.replicate BUFFER_SIZE 0, head := 0 }

/-- Embedding of `ConstSlice::push_amount`: copy `slice[0..amount]` to
`data[head..head+amount]` and advance the cursor.  `none` models the Rust
index panic raised when a write would land at or beyond index 1024. -/
def ConstSlice.push_amount (s : ConstSlice) (slice : List Nat) (amount : Nat) :
    Option ConstSlice :=
  match copy_go slice 0 s.head amount 0 s.data with
  | none => none
  | some d => some { data := d, head := s.head + amount }

/-- Embedding of `ConstSlice::push_slice`. -/
def ConstSlice.push_slice (s : ConstSlice) (slice : List Nat) : Option ConstSlice :=
  s.push_amount slice slice.length

/-- Embedding of `ConstSlice::from_slice`. -/
def ConstSlice.from_slice (slice : List Nat) : Option ConstSlice :=
  ConstSlice.new.push_slice slice

/-- Embedding of `ConstSlice::len`: the cursor. -/
def ConstSlice.len (s : ConstSlice) : Nat := s.head

/-- Embedding of `ConstSlice::as_slice`: `&self.data`, the whole backing array. -/
def ConstSlice.as_slice (s : ConstSlice) : List Nat := s.data

/-- Embedding of `ConstSlice::push_other`. -/
def ConstSlice.push_other (s : ConstSlice) (other : ConstSlice) : Option ConstSlice :=
  s.push_amount other.as_slice other.len

/-- Embedding of `sha1_from_const_slice`. -/
def sha1_from_const_slice (cs : ConstSlice) : Option Digest :=
  let state : State5 := (0x67452301, 0xefcdab89, 0x98badcfe, 0x10325476, 0xc3d2e1f0)
  let blocks : Blocks := { len := 0, data := List.replicate 64 0 }
  match process_blocks blocks cs.as_slice cs.len state with
  | none => none
  | some (blocks, len, state) => digest state len blocks

/-!  Rendering of a digest. -/

/-- Embedding of `Digest::as_bytes`: 20 bytes, big-endian, 4 bytes per word,
words in order; each `as u8` cast is `% 256`. -/
def Digest.as_bytes (dg : Digest) : List Nat :=
  let (d0, d1, d2, d3, d4) := dg.data
  [(d0 >>> 24) % 256, (d0 >>> 16) % 256, (d0 >>> 8) % 256, (d0 >>> 0) % 256,
    (d1 >>> 24) % 256, (d1 >>> 16) % 256, (d1 >>> 8) % 256, (d1 >>> 0) % 256,
    (d2 >>> 24) % 256, (d2 >>> 16) % 256, (d2 >>> 8) % 256, (d2 >>> 0) % 256,
    (d3 >>> 24) % 256, (d3 >>> 16) % 256, (d3 >>> 8) % 256, (d3 >>> 0) % 256,
    (d4 >>> 24) % 256, (d4 >>> 16) % 256, (d4 >>> 8) % 256, (d4 >>> 0) % 256]

/-- Lowercase hexadecimal digit for a value below 16. -/
def hex_char (n : Nat) : Char :=
  if n < 10 then Char.ofNat (48 + n) else Char.ofNat (87 + n)

/-- The 8 lowercase hex digits of one `u32` word, as printed by `{:08x}`. -/
def hex8 (w : Nat) : List Char :=
  [hex_char ((w >>> 28) % 16), hex_char ((w >>> 24) % 16), hex_char ((w >>> 20) % 16),
    hex_char ((w >>> 16) % 16), hex_char ((w >>> 12) % 16), hex_char ((w >>> 8) % 16),
    hex_char ((w >>> 4) % 16), hex_char (w % 16)]

/-- Embedding of the `Display` instance of `Digest`: each of the five words
printed with `{:08x}`, concatenated in order. -/
def Digest.to_hex (dg : Digest) : String :=
  let (d0, d1, d2, d3, d4) := dg.data
  String.mk (hex8 d0 ++ hex8 d1 ++ hex8 d2 ++ hex8 d3 ++ hex8 d4)

/-- Byte sequence of the ASCII input "The quick brown fox jumps over the lazy dog". -/
def fox_bytes : List Nat :=
  ("The quick brown fox jumps over the lazy dog".toList.map Char.toNat)

-- quick sanity examples (removed later): none for now

theorem and15_eq_mod (x : Nat) : x &&& 15 = x % 16 := by
  have h := Nat.and_pow_two_sub_one_eq_mod x 4
  norm_num at h
  omega

theorem r0_bridge (k : Nat) (hk : k < 16) (w : Nat → Nat) (a b c d e : Nat) :
    spec_round k (w, a, b, c, d, e) =
      ((r0 w a b c d e k).1, (r0 w a b c d e k).2.2, a, (r0 w a b c d e k).2.1, c, d) := by
  have hmod : k % 16 = k := Nat.mod_eq_of_lt hk
  simp only [spec_round, spec_f, spec_k, r0, wrapping_add, hmod,
    if_neg (show ¬ 16 ≤ k by omega), if_pos (show k < 20 by omega), Prod.mk.injEq,
    true_and, and_true]
  generalize (b &&& (c ^^^ d)) ^^^ d = fv
  generalize rol a 5 = rv
  generalize w k = wv
  omega

theorem r1_bridge (k i : Nat) (hk1 : 16 ≤ k) (hk2 : k < 20) (hi : k % 16 = i)
    (w : Nat → Nat) (a b c d e : Nat) :
    spec_round k (w, a, b, c, d, e) =
      ((r1 w a b c d e i).1, (r1 w a b c d e i).2.2, a, (r1 w a b c d e i).2.1, c, d) := by
  have h13 : (k + 13) % 16 = (i + 13) &&& 15 := by rw [and15_eq_mod]; omega
  have h8 : (k + 8) % 16 = (i + 8) &&& 15 := by rw [and15_eq_mod]; omega
  have h2 : (k + 2) % 16 = (i + 2) &&& 15 := by rw [and15_eq_mod]; omega
  simp only [spec_round, spec_f, spec_k, r1, blk, wrapping_add, hi, h13, h8, h2,
    if_pos hk1, if_pos (show k < 20 by omega), Function.update_same, Prod.mk.injEq,
    true_and, and_true]
  generalize (b &&& (c ^^^ d)) ^^^ d = fv
  generalize rol a 5 = rv
  generalize rol (w ((i + 13) &&& 15) ^^^ w ((i + 8) &&& 15) ^^^ w ((i + 2) &&& 15) ^^^ w i) 1 = wv
  omega

theorem r2_bridge (k i : Nat) (hk1 : 20 ≤ k) (hk2 : k < 40) (hi : k % 16 = i)
    (w : Nat → Nat) (a b c d e : Nat) :
    spec_round k (w, a, b, c, d, e) =
      ((r2 w a b c d e i).1, (r2 w a b c d e i).2.2, a, (r2 w a b c d e i).2.1, c, d) := by
  have h13 : (k + 13) % 16 = (i + 13) &&& 15 := by rw [and15_eq_mod]; omega
  have h8 : (k + 8) % 16 = (i + 8) &&& 15 := by rw [and15_eq_mod]; omega
  have h2 : (k + 2) % 16 = (i + 2) &&& 15 := by rw [and15_eq_mod]; omega
  simp only [spec_round, spec_f, spec_k, r2, blk, wrapping_add, hi, h13, h8, h2,
    if_pos (show 16 ≤ k by omega), if_neg (show ¬ k < 20 by omega),
    if_pos (show k < 40 by omega), Function.update_same, Prod.mk.injEq,
    true_and, and_true]
  generalize b ^^^ c ^^^ d = fv
  generalize rol a 5 = rv
  generalize rol (w ((i + 13) &&& 15) ^^^ w ((i + 8) &&& 15) ^^^ w ((i + 2) &&& 15) ^^^ w i) 1 = wv
  omega

theorem r3_bridge (k i : Nat) (hk1 : 40 ≤ k) (hk2 : k < 60) (hi : k % 16 = i)
    (w : Nat → Nat) (a b c d e : Nat) :
    spec_round k (w, a, b, c, d, e) =
      ((r3 w a b c d e i).1, (r3 w a b c d e i).2.2, a, (r3 w a b c d e i).2.1, c, d) := by
  have h13 : (k + 13) % 16 = (i + 13) &&& 15 := by rw [and15_eq_mod]; omega
  have h8 : (k + 8) % 16 = (i + 8) &&& 15 := by rw [and15_eq_mod]; omega
  have h2 : (k + 2) % 16 = (i + 2) &&& 15 := by rw [and15_eq_mod]; omega
  simp only [spec_round, spec_f, spec_k, r3, blk, wrapping_add, hi, h13, h8, h2,
    if_pos (show 16 ≤ k by omega), if_neg (show ¬ k < 20 by omega),
    if_neg (show ¬ k < 40 by omega), if_pos (show k < 60 by omega),
    Function.update_same, Prod.mk.injEq, true_and, and_true]
  generalize ((b ||| c) &&& d) ||| (b &&& c) = fv
  generalize rol a 5 = rv
  generalize rol (w ((i + 13) &&& 15) ^^^ w ((i + 8) &&& 15) ^^^ w ((i + 2) &&& 15) ^^^ w i) 1 = wv
  omega

theorem r4_bridge (k i : Nat) (hk1 : 60 ≤ k) (hk2 : k < 80) (hi : k % 16 = i)
    (w : Nat → Nat) (a b c d e : Nat) :
    spec_round k (w, a, b, c, d, e) =
      ((r4 w a b c d e i).1, (r4 w a b c d e i).2.2, a, (r4 w a b c d e i).2.1, c, d) := by
  have h13 : (k + 13) % 16 = (i + 13) &&& 15 := by rw [and15_eq_mod]; omega
  have h8 : (k + 8) % 16 = (i + 8) &&& 15 := by rw [and15_eq_mod]; omega
  have h2 : (k + 2) % 16 = (i + 2) &&& 15 := by rw [and15_eq_mod]; omega
  simp only [spec_round, spec_f, spec_k, r4, blk, wrapping_add, hi, h13, h8, h2,
    if_pos (show 16 ≤ k by omega), if_neg (show ¬ k < 20 by omega),
    if_neg (show ¬ k < 40 by omega), if_neg (show ¬ k < 60 by omega),
    Function.update_same, Prod.mk.injEq, true_and, and_true]
  generalize b ^^^ c ^^^ d = fv
  generalize rol a 5 = rv
  generalize rol (w ((i + 13) &&& 15) ^^^ w ((i + 8) &&& 15) ^^^ w ((i + 2) &&& 15) ^^^ w i) 1 = wv
  omega

theorem round_0_spec (st : RoundState) : round_0 st = spec_round 0 st := by
  rcases st with ⟨w, a, b, c, d, e⟩
  rw [r0_bridge 0 (by omega)]
  rfl

theorem round_1_spec (st : RoundState) : round_1 st = spec_round 1 st := by
  rcases st with ⟨w, a, b, c, d, e⟩
  rw [r0_bridge 1 (by omega)]
  rfl

theorem round_2_spec (st : RoundState) : round_2 st = spec_round 2 st := by
  rcases st with ⟨w, a, b, c, d, e⟩
  rw [r0_bridge 2 (by omega)]
  rfl

theorem round_3_spec (st : RoundState) : round_3 st = spec_round 3 st := by
  rcases st with ⟨w, a, b, c, d, e⟩
  rw [r0_bridge 3 (by omega)]
  rfl

theorem round_4_spec (st : RoundState) : round_4 st = spec_round 4 st := by
  rcases st with ⟨w, a, b, c, d, e⟩
  rw [r0_bridge 4 (by omega)]
  rfl

theorem round_5_spec (st : RoundState) : round_5 st = spec_round 5 st := by
  rcases st with ⟨w, a, b, c, d, e⟩
  rw [r0_bridge 5 (by omega)]
  rfl

theorem round_6_spec (st : RoundState) : round_6 st = spec_round 6 st := by
  rcases st with ⟨w, a, b, c, d, e⟩
  rw [r0_bridge 6 (by omega)]
  rfl

theorem round_7_spec (st : RoundState) : round_7 st = spec_round 7 st := by
  rcases st with ⟨w, a, b, c, d, e⟩
  rw [r0_bridge 7 (by omega)]
  rfl

theorem round_8_spec (st : RoundState) : round_8 st = spec_round 8 st := by
  rcases st with ⟨w, a, b, c, d, e⟩
  rw [r0_bridge 8 (by omega)]
  rfl

theorem round_9_spec (st : RoundState) : round_9 st = spec_round 9 st := by
  rcases st with ⟨w, a, b, c, d, e⟩
  rw [r0_bridge 9 (by omega)]
  rfl

theorem round_10_spec (st : RoundState) : round_10 st = spec_round 10 st := by
  rcases st with ⟨w, a, b, c, d, e⟩
  rw [r0_bridge 10 (by omega)]
  rfl

theorem round_11_spec (st : RoundState) : round_11 st = spec_round 11 st := by
  rcases st with ⟨w, a, b, c, d, e⟩
  rw [r0_bridge 11 (by omega)]
  rfl

theorem round_12_spec (st : RoundState) : round_12 st = spec_round 12 st := by
  rcases st with ⟨w, a, b, c, d, e⟩
  rw [r0_bridge 12 (by omega)]
  rfl

theorem round_13_spec (st : RoundState) : round_13 st = spec_round 13 st := by
  rcases st with ⟨w, a, b, c, d, e⟩
  rw [r0_bridge 13 (by omega)]
  rfl

theorem round_14_spec (st : RoundState) : round_14 st = spec_round 14 st := by
  rcases st with ⟨w, a, b, c, d, e⟩
  rw [r0_bridge 14 (by omega)]
  rfl

theorem round_15_spec (st : RoundState) : round_15 st = spec_round 15 st := by
  rcases st with ⟨w, a, b, c, d, e⟩
  rw [r0_bridge 15 (by omega)]
  rfl

theorem round_16_spec (st : RoundState) : round_16 st = spec_round 16 st := by
  rcases st with ⟨w, a, b, c, d, e⟩
  rw [r1_bridge 16 0 (by omega) (by omega) (by omega)]
  rfl

theorem round_17_spec (st : RoundState) : round_17 st = spec_round 17 st := by
  rcases st with ⟨w, a, b, c, d, e⟩
  rw [r1_bridge 17 1 (by omega) (by omega) (by omega)]
  rfl

theorem round_18_spec (st : RoundState) : round_18 st = spec_round 18 st := by
  rcases st with ⟨w, a, b, c, d, e⟩
  rw [r1_bridge 18 2 (by omega) (by omega) (by omega)]
  rfl

theorem round_19_spec (st : RoundState) : round_19 st = spec_round 19 st := by
  rcases st with ⟨w, a, b, c, d, e⟩
  rw [r1_bridge 19 3 (by omega) (by omega) (by omega)]
  rfl

theorem round_20_spec (st : RoundState) : round_20 st = spec_round 20 st := by
  rcases st with ⟨w, a, b, c, d, e⟩
  rw [r2_bridge 20 4 (by omega) (by omega) (by omega)]
  rfl

theorem round_21_spec (st : RoundState) : round_21 st = spec_round 21 st := by
  rcases st with ⟨w, a, b, c, d, e⟩
  rw [r2_bridge 21 5 (by omega) (by omega) (by omega)]
  rfl

theorem round_22_spec (st : RoundState) : round_22 st = spec_round 22 st := by
  rcases st with ⟨w, a, b, c, d, e⟩
  rw [r2_bridge 22 6 (by omega) (by omega) (by omega)]
  rfl

theorem round_23_spec (st : RoundState) : round_23 st = spec_round 23 st := by
  rcases st with ⟨w, a, b, c, d, e⟩
  rw [r2_bridge 23 7 (by omega) (by omega) (by omega)]
  rfl

theorem round_24_spec (st : RoundState) : round_24 st = spec_round 24 st := by
  rcases st with ⟨w, a, b, c, d, e⟩
  rw [r2_bridge 24 8 (by omega) (by omega) (by omega)]
  rfl

theorem round_25_spec (st : RoundState) : round_25 st = spec_round 25 st := by
  rcases st with ⟨w, a, b, c, d, e⟩
  rw [r2_bridge 25 9 (by omega) (by omega) (by omega)]
  rfl

theorem round_26_spec (st : RoundState) : round_26 st = spec_round 26 st := by
  rcases st with ⟨w, a, b, c, d, e⟩
  rw [r2_bridge 26 10 (by omega) (by omega) (by omega)]
  rfl

theorem round_27_spec (st : RoundState) : round_27 st = spec_round 27 st := by
  rcases st with ⟨w, a, b, c, d, e⟩
  rw [r2_bridge 27 11 (by omega) (by omega) (by omega)]
  rfl

theorem round_28_spec (st : RoundState) : round_28 st = spec_round 28 st := by
  rcases st with ⟨w, a, b, c, d, e⟩
  rw [r2_bridge 28 12 (by omega) (by omega) (by omega)]
  rfl

theorem round_29_spec (st : RoundState) : round_29 st = spec_round 29 st := by
  rcases st with ⟨w, a, b, c, d, e⟩
  rw [r2_bridge 29 13 (by omega) (by omega) (by omega)]
  rfl

theorem round_30_spec (st : RoundState) : round_30 st = spec_round 30 st := by
  rcases st with ⟨w, a, b, c, d, e⟩
  rw [r2_bridge 30 14 (by omega) (by omega) (by omega)]
  rfl

theorem round_31_spec (st : RoundState) : round_31 st = spec_round 31 st := by
  rcases st with ⟨w, a, b, c, d, e⟩
  rw [r2_bridge 31 15 (by omega) (by omega) (by omega)]
  rfl

theorem round_32_spec (st : RoundState) : round_32 st = spec_round 32 st := by
  rcases st with ⟨w, a, b, c, d, e⟩
  rw [r2_bridge 32 0 (by omega) (by omega) (by omega)]
  rfl

theorem round_33_spec (st : RoundState) : round_33 st = spec_round 33 st := by
  rcases st with ⟨w, a, b, c, d, e⟩
  rw [r2_bridge 33 1 (by omega) (by omega) (by omega)]
  rfl

theorem round_34_spec (st : RoundState) : round_34 st = spec_round 34 st := by
  rcases st with ⟨w, a, b, c, d, e⟩
  rw [r2_bridge 34 2 (by omega) (by omega) (by omega)]
  rfl

theorem round_35_spec (st : RoundState) : round_35 st = spec_round 35 st := by
  rcases st with ⟨w, a, b, c, d, e⟩
  rw [r2_bridge 35 3 (by omega) (by omega) (by omega)]
  rfl

theorem round_36_spec (st : RoundState) : round_36 st = spec_round 36 st := by
  rcases st with ⟨w, a, b, c, d, e⟩
  rw [r2_bridge 36 4 (by omega) (by omega) (by omega)]
  rfl

theorem round_37_spec (st : RoundState) : round_37 st = spec_round 37 st := by
  rcases st with ⟨w, a, b, c, d, e⟩
  rw [r2_bridge 37 5 (by omega) (by omega) (by omega)]
  rfl

theorem round_38_spec (st : RoundState) : round_38 st = spec_round 38 st := by
  rcases st with ⟨w, a, b, c, d, e⟩
  rw [r2_bridge 38 6 (by omega) (by omega) (by omega)]
  rfl

theorem round_39_spec (st : RoundState) : round_39 st = spec_round 39 st := by
  rcases st with ⟨w, a, b, c, d, e⟩
  rw [r2_bridge 39 7 (by omega) (by omega) (by omega)]
  rfl

theorem round_40_spec (st : RoundState) : round_40 st = spec_round 40 st := by
  rcases st with ⟨w, a, b, c, d, e⟩
  rw [r3_bridge 40 8 (by omega) (by omega) (by omega)]
  rfl

theorem round_41_spec (st : RoundState) : round_41 st = spec_round 41 st := by
  rcases st with ⟨w, a, b, c, d, e⟩
  rw [r3_bridge 41 9 (by omega) (by omega) (by omega)]
  rfl

theorem round_42_spec (st : RoundState) : round_42 st = spec_round 42 st := by
  rcases st with ⟨w, a, b, c, d, e⟩
  rw [r3_bridge 42 10 (by omega) (by omega) (by omega)]
  rfl

theorem round_43_spec (st : RoundState) : round_43 st = spec_round 43 st := by
  rcases st with ⟨w, a, b, c, d, e⟩
  rw [r3_bridge 43 11 (by omega) (by omega) (by omega)]
  rfl

theorem round_44_spec (st : RoundState) : round_44 st = spec_round 44 st := by
  rcases st with ⟨w, a, b, c, d, e⟩
  rw [r3_bridge 44 12 (by omega) (by omega) (by omega)]
  rfl

theorem round_45_spec (st : RoundState) : round_45 st = spec_round 45 st := by
  rcases st with ⟨w, a, b, c, d, e⟩
  rw [r3_bridge 45 13 (by omega) (by omega) (by omega)]
  rfl

theorem round_46_spec (st : RoundState) : round_46 st = spec_round 46 st := by
  rcases st with ⟨w, a, b, c, d, e⟩
  rw [r3_bridge 46 14 (by omega) (by omega) (by omega)]
  rfl

theorem round_47_spec (st : RoundState) : round_47 st = spec_round 47 st := by
  rcases st with ⟨w, a, b, c, d, e⟩
  rw [r3_bridge 47 15 (by omega) (by omega) (by omega)]
  rfl

theorem round_48_spec (st : RoundState) : round_48 st = spec_round 48 st := by
  rcases st with ⟨w, a, b, c, d, e⟩
  rw [r3_bridge 48 0 (by omega) (by omega) (by omega)]
  rfl

theorem round_49_spec (st : RoundState) : round_49 st = spec_round 49 st := by
  rcases st with ⟨w, a, b, c, d, e⟩
  rw [r3_bridge 49 1 (by omega) (by omega) (by omega)]
  rfl

theorem round_50_spec (st : RoundState) : round_50 st = spec_round 50 st := by
  rcases st with ⟨w, a, b, c, d, e⟩
  rw [r3_bridge 50 2 (by omega) (by omega) (by omega)]
  rfl

theorem round_51_spec (st : RoundState) : round_51 st = spec_round 51 st := by
  rcases st with ⟨w, a, b, c, d, e⟩
  rw [r3_bridge 51 3 (by omega) (by omega) (by omega)]
  rfl

theorem round_52_spec (st : RoundState) : round_52 st = spec_round 52 st := by
  rcases st with ⟨w, a, b, c, d, e⟩
  rw [r3_bridge 52 4 (by omega) (by omega) (by omega)]
  rfl

theorem round_53_spec (st : RoundState) : round_53 st = spec_round 53 st := by
  rcases st with ⟨w, a, b, c, d, e⟩
  rw [r3_bridge 53 5 (by omega) (by omega) (by omega)]
  rfl

theorem round_54_spec (st : RoundState) : round_54 st = spec_round 54 st := by
  rcases st with ⟨w, a, b, c, d, e⟩
  rw [r3_bridge 54 6 (by omega) (by omega) (by omega)]
  rfl

theorem round_55_spec (st : RoundState) : round_55 st = spec_round 55 st := by
  rcases st with ⟨w, a, b, c, d, e⟩
  rw [r3_bridge 55 7 (by omega) (by omega) (by omega)]
  rfl

theorem round_56_spec (st : RoundState) : round_56 st = spec_round 56 st := by
  rcases st with ⟨w, a, b, c, d, e⟩
  rw [r3_bridge 56 8 (by omega) (by omega) (by omega)]
  rfl

theorem round_57_spec (st : RoundState) : round_57 st = spec_round 57 st := by
  rcases st with ⟨w, a, b, c, d, e⟩
  rw [r3_bridge 57 9 (by omega) (by omega) (by omega)]
  rfl

theorem round_58_spec (st : RoundState) : round_58 st = spec_round 58 st := by
  rcases st with ⟨w, a, b, c, d, e⟩
  rw [r3_bridge 58 10 (by omega) (by omega) (by omega)]
  rfl

theorem round_59_spec (st : RoundState) : round_59 st = spec_round 59 st := by
  rcases st with ⟨w, a, b, c, d, e⟩
  rw [r3_bridge 59 11 (by omega) (by omega) (by omega)]
  rfl

theorem round_60_spec (st : RoundState) : round_60 st = spec_round 60 st := by
  rcases st with ⟨w, a, b, c, d, e⟩
  rw [r4_bridge 60 12 (by omega) (by omega) (by omega)]
  rfl

theorem round_61_spec (st : RoundState) : round_61 st = spec_round 61 st := by
  rcases st with ⟨w, a, b, c, d, e⟩
  rw [r4_bridge 61 13 (by omega) (by omega) (by omega)]
  rfl

theorem round_62_spec (st : RoundState) : round_62 st = spec_round 62 st := by
  rcases st with ⟨w, a, b, c, d, e⟩
  rw [r4_bridge 62 14 (by omega) (by omega) (by omega)]
  rfl

theorem round_63_spec (st : RoundState) : round_63 st = spec_round 63 st := by
  rcases st with ⟨w, a, b, c, d, e⟩
  rw [r4_bridge 63 15 (by omega) (by omega) (by omega)]
  rfl

theorem round_64_spec (st : RoundState) : round_64 st = spec_round 64 st := by
  rcases st with ⟨w, a, b, c, d, e⟩
  rw [r4_bridge 64 0 (by omega) (by omega) (by omega)]
  rfl

theorem round_65_spec (st : RoundState) : round_65 st = spec_round 65 st := by
  rcases st with ⟨w, a, b, c, d, e⟩
  rw [r4_bridge 65 1 (by omega) (by omega) (by omega)]
  rfl

theorem round_66_spec (st : RoundState) : round_66 st = spec_round 66 st := by
  rcases st with ⟨w, a, b, c, d, e⟩
  rw [r4_bridge 66 2 (by omega) (by omega) (by omega)]
  rfl

theorem round_67_spec (st : RoundState) : round_67 st = spec_round 67 st := by
  rcases st with ⟨w, a, b, c, d, e⟩
  rw [r4_bridge 67 3 (by omega) (by omega) (by omega)]
  rfl

theorem round_68_spec (st : RoundState) : round_68 st = spec_round 68 st := by
  rcases st with ⟨w, a, b, c, d, e⟩
  rw [r4_bridge 68 4 (by omega) (by omega) (by omega)]
  rfl

theorem round_69_spec (st : RoundState) : round_69 st = spec_round 69 st := by
  rcases st with ⟨w, a, b, c, d, e⟩
  rw [r4_bridge 69 5 (by omega) (by omega) (by omega)]
  rfl

theorem round_70_spec (st : RoundState) : round_70 st = spec_round 70 st := by
  rcases st with ⟨w, a, b, c, d, e⟩
  rw [r4_bridge 70 6 (by omega) (by omega) (by omega)]
  rfl

theorem round_71_spec (st : RoundState) : round_71 st = spec_round 71 st := by
  rcases st with ⟨w, a, b, c, d, e⟩
  rw [r4_bridge 71 7 (by omega) (by omega) (by omega)]
  rfl

theorem round_72_spec (st : RoundState) : round_72 st = spec_round 72 st := by
  rcases st with ⟨w, a, b, c, d, e⟩
  rw [r4_bridge 72 8 (by omega) (by omega) (by omega)]
  rfl

theorem round_73_spec (st : RoundState) : round_73 st = spec_round 73 st := by
  rcases st with ⟨w, a, b, c, d, e⟩
  rw [r4_bridge 73 9 (by omega) (by omega) (by omega)]
  rfl

theorem round_74_spec (st : RoundState) : round_74 st = spec_round 74 st := by
  rcases st with ⟨w, a, b, c, d, e⟩
  rw [r4_bridge 74 10 (by omega) (by omega) (by omega)]
  rfl

theorem round_75_spec (st : RoundState) : round_75 st = spec_round 75 st := by
  rcases st with ⟨w, a, b, c, d, e⟩
  rw [r4_bridge 75 11 (by omega) (by omega) (by omega)]
  rfl

theorem round_76_spec (st : RoundState) : round_76 st = spec_round 76 st := by
  rcases st with ⟨w, a, b, c, d, e⟩
  rw [r4_bridge 76 12 (by omega) (by omega) (by omega)]
  rfl

theorem round_77_spec (st : RoundState) : round_77 st = spec_round 77 st := by
  rcases st with ⟨w, a, b, c, d, e⟩
  rw [r4_bridge 77 13 (by omega) (by omega) (by omega)]
  rfl

theorem round_78_spec (st : RoundState) : round_78 st = spec_round 78 st := by
  rcases st with ⟨w, a, b, c, d, e⟩
  rw [r4_bridge 78 14 (by omega) (by omega) (by omega)]
  rfl

theorem round_79_spec (st : RoundState) : round_79 st = spec_round 79 st := by
  rcases st with ⟨w, a, b, c, d, e⟩
  rw [r4_bridge 79 15 (by omega) (by omega) (by omega)]
  rfl

theorem spec_rounds_eq_chain (st : RoundState) : spec_rounds 80 0 st = spec_chain st := rfl


set_option maxHeartbeats 1000000 in
/-- C1: the block compression function `process_state` performs exactly 80
rounds in four 20-round stages with the stage mixing functions and constants of
standard SHA-1; each round computes `temp = rol(a,5) + f + e + k + w[i]` modulo
`2^32` and rotates the five variables with `c = rol(b,30)`; for every round
`i ≥ 16` the schedule word at index `i mod 16` is replaced before use by
`rol(w[(i+13)%16] ^^^ w[(i+8)%16] ^^^ w[(i+2)%16] ^^^ w[i%16], 1)`; and after 80
rounds the working variables are added back into the five state words modulo
`2^32` — stated as: `process_state` coincides with the round-indexed
specification `process_state_spec`. -/
theorem c1_process_state_eighty_rounds (s0 s1 s2 s3 s4 : Nat) (block : Nat → Nat) :
    process_state (s0, s1, s2, s3, s4) block
      = process_state_spec (s0, s1, s2, s3, s4) block := by
  simp only [process_state, process_state_spec, spec_rounds_eq_chain, spec_chain,
    round_0_spec,
    round_1_spec,
    round_2_spec,
    round_3_spec,
    round_4_spec,
    round_5_spec,
    round_6_spec,
    round_7_spec,
    round_8_spec,
    round_9_spec,
    round_10_spec,
    round_11_spec,
    round_12_spec,
    round_13_spec,
    round_14_spec,
    round_15_spec,
    round_16_spec,
    round_17_spec,
    round_18_spec,
    round_19_spec,
    round_20_spec,
    round_21_spec,
    round_22_spec,
    round_23_spec,
    round_24_spec,
    round_25_spec,
    round_26_spec,
    round_27_spec,
    round_28_spec,
    round_29_spec,
    round_30_spec,
    round_31_spec,
    round_32_spec,
    round_33_spec,
    round_34_spec,
    round_35_spec,
    round_36_spec,
    round_37_spec,
    round_38_spec,
    round_39_spec,
    round_40_spec,
    round_41_spec,
    round_42_spec,
    round_43_spec,
    round_44_spec,
    round_45_spec,
    round_46_spec,
    round_47_spec,
    round_48_spec,
    round_49_spec,
    round_50_spec,
    round_51_spec,
    round_52_spec,
    round_53_spec,
    round_54_spec,
    round_55_spec,
    round_56_spec,
    round_57_spec,
    round_58_spec,
    round_59_spec,
    round_60_spec,
    round_61_spec,
    round_62_spec,
    round_63_spec,
    round_64_spec,
    round_65_spec,
    round_66_spec,
    round_67_spec,
    round_68_spec,
    round_69_spec,
    round_70_spec,
    round_71_spec,
    round_72_spec,
    round_73_spec,
    round_74_spec,
    round_75_spec,
    round_76_spec,
    round_77_spec,
    round_78_spec,
    round_79_spec,
    wrapping_add]

/-!  Elementary facts about the fallible read, write and copy primitives. -/

theorem getC_eq (l : List Nat) (i : Nat) : getC l i = l[i]? := rfl

theorem getC_some (l : List Nat) (i : Nat) (h : i < l.length) : getC l i = some l[i] :=
  List.getElem?_eq_getElem h

theorem setC_some (l : List Nat) (i : Nat) (v : Nat) (h : i < l.length) :
    setC l i v = some (l.set i v) := if_pos h

theorem copy_go_some (slice : List Nat) (srcOff dstOff : Nat) :
    ∀ (fuel i : Nat) (data : List Nat),
      srcOff + i + fuel ≤ slice.length → dstOff + i + fuel ≤ data.length →
      ∃ out, copy_go slice srcOff dstOff fuel i data = some out ∧
        out.length = data.length ∧
        (∀ j, j < dstOff + i → out[j]? = data[j]?) ∧
        (∀ j, dstOff + i ≤ j → j < dstOff + i + fuel → out[j]? = slice[srcOff + (j - dstOff)]?) ∧
        (∀ j, dstOff + i + fuel ≤ j → out[j]? = data[j]?) := by
  intro fuel
  induction fuel with
  | zero =>
    intro i data hr hw
    exact ⟨data, rfl, rfl, fun j _ => rfl, fun j h1 h2 => by omega, fun j _ => rfl⟩
  | succ fuel ih =>
    intro i data hr hw
    have hri : srcOff + i < slice.length := by omega
    have hwi : dstOff + i < data.length := by omega
    simp only [copy_go, getC_some slice (srcOff + i) hri,
      setC_some data (dstOff + i) (slice[srcOff + i]) hwi]
    obtain ⟨out, hout, hlen, hbelow, hmid, habove⟩ :=
      ih (i + 1) (data.set (dstOff + i) slice[srcOff + i])
        (by omega) (by rw [List.length_set]; omega)
    refine ⟨out, hout, by rw [hlen, List.length_set], ?_, ?_, ?_⟩
    · intro j hj
      rw [hbelow j (by omega), List.getElem?_set_ne (by omega)]
    · intro j hj1 hj2
      rcases Nat.eq_or_lt_of_le hj1 with hj | hj
    
      · have h1 : out[j]? = (data.set (dstOff + i) slice[srcOff + i])[j]? :=
          hbelow j (by omega)
        rw [h1, ← hj, List.getElem?_set_self hwi,
          show srcOff + (dstOff + i - dstOff) = srcOff + i by omega,
          List.getElem?_eq_getElem hri]
      · exact hmid j (by omega) (by omega)
    · intro j hj
      rw [habove j (by omega), List.getElem?_set_ne (by omega)]

theorem copy_go_none (slice : List Nat) (srcOff dstOff : Nat) :
    ∀ (fuel i : Nat) (data : List Nat),
      srcOff + i + fuel ≤ slice.length → dstOff + i ≤ data.length →
      data.length < dstOff + i + fuel →
      copy_go slice srcOff dstOff fuel i data = none := by
  intro fuel
  induction fuel with
  | zero => intro i data hr hw hov; exact ((by omega : False)).elim
  | succ fuel ih =>
    intro i data hr hw hov
    have hri : srcOff + i < slice.length := by omega
    rcases Nat.lt_or_ge (dstOff + i) data.length with hlt | hge
    · simp only [copy_go, getC_some slice (srcOff + i) hri,
        setC_some data (dstOff + i) (slice[srcOff + i]) hlt]
      exact ih (i + 1) _ (by omega) (by rw [List.length_set]; omega)
        (by rw [List.length_set]; omega)
    · simp only [copy_go, getC_some slice (srcOff + i) hri, setC,
        if_neg (show ¬ dstOff + i < data.length by omega)]

theorem copy_go_congr (s1 s2 : List Nat) (srcOff dstOff : Nat) :
    ∀ (fuel i : Nat) (data : List Nat),
      (∀ t, i ≤ t → t < i + fuel → s1[srcOff + t]? = s2[srcOff + t]?) →
      copy_go s1 srcOff dstOff fuel i data = copy_go s2 srcOff dstOff fuel i data := by
  intro fuel
  induction fuel with
  | zero => intro i data _; rfl
  | succ fuel ih =>
    intro i data hag
    rw [copy_go, copy_go, getC_eq, getC_eq, hag i (by omega) (by omega)]
    rcases h2 : s2[srcOff + i]? with _ | b
    · rfl
    · dsimp only
      rcases hs : setC data (dstOff + i) b with _ | d
      · rfl
      · exact ih (i + 1) d (fun t ht1 ht2 => hag t (by omega) (by omega))

theorem as_block_go_some (input : List Nat) (offset : Nat) :
    ∀ (fuel i : Nat) (res : Nat → Nat),
      offset + i * 4 + fuel * 4 ≤ input.length →
      ∃ b, as_block_go input offset fuel i res = some b := by
  intro fuel
  induction fuel with
  | zero => intro i res h; exact ⟨res, rfl⟩
  | succ fuel ih =>
    intro i res h
    have h3 : offset + i * 4 + 3 < input.length := by omega
    have h2 : offset + i * 4 + 2 < input.length := by omega
    have h1 : offset + i * 4 + 1 < input.length := by omega
    have h0 : offset + i * 4 + 0 < input.length := by omega
    simp only [as_block_go, getC_some input _ h3, getC_some input _ h2,
      getC_some input _ h1, getC_some input _ h0]
    exact ih (i + 1) _ (by omega)

theorem as_block_some (input : List Nat) (offset : Nat) (h : offset + 64 ≤ input.length) :
    ∃ b, as_block input offset = some b :=
  as_block_go_some input offset 16 0 _ (by omega)

theorem as_block_go_congr (d1 d2 : List Nat) (offset : Nat) :
    ∀ (fuel i : Nat),
      (∀ t, offset + i * 4 ≤ t → t < offset + i * 4 + fuel * 4 → d1[t]? = d2[t]?) →
      ∀ res, as_block_go d1 offset fuel i res = as_block_go d2 offset fuel i res := by
  intro fuel
  induction fuel with
  | zero => intro i _ res; rfl
  | succ fuel ih =>
    intro i hag res
    have ihh := ih (i + 1) (fun t ht1 ht2 => hag t (by omega) (by omega))
    rw [as_block_go, as_block_go]
    simp only [getC_eq]
    rw [hag (offset + i * 4 + 3) (by omega) (by omega),
      hag (offset + i * 4 + 2) (by omega) (by omega),
      hag (offset + i * 4 + 1) (by omega) (by omega),
      hag (offset + i * 4 + 0) (by omega) (by omega)]
    simp only [ihh]

theorem as_block_congr (d1 d2 : List Nat) (offset : Nat)
    (hag : ∀ t, offset ≤ t → t < offset + 64 → d1[t]? = d2[t]?) :
    as_block d1 offset = as_block d2 offset :=
  as_block_go_congr d1 d2 offset 16 0 (fun t ht1 ht2 => hag t (by omega) (by omega)) _

theorem process_blocks_go_some (data : List Nat) (data_len : Nat) :
    ∀ (fuel : Nat) (blocks : Blocks) (state : State5) (len : Nat),
      data_len ≤ data.length → data_len ≤ len + 64 * fuel →
      blocks.data.length = 64 → blocks.len ≤ 63 →
      ∃ out : Blocks × Nat × State5,
        process_blocks_go data data_len fuel blocks state len = some out ∧
        out.1.data.length = 64 ∧ out.1.len ≤ 63 := by
  intro fuel
  induction fuel with
  | zero =>
    intro blocks state len hdl hf hb hl
    rw [process_blocks_go, if_neg (show ¬ len < data_len by omega)]
    exact ⟨(blocks, len, state), rfl, hb, hl⟩
  | succ fuel ih =>
    intro blocks state len hdl hf hb hl
    rw [process_blocks_go]
    rcases Nat.lt_or_ge len data_len with hlen | hlen
    · rw [if_pos hlen]
      dsimp only
      rcases le_or_lt 64 (data_len - len) with h64 | h64
      · rw [if_pos h64]
        obtain ⟨B, hB⟩ := as_block_some data len (by omega)
        rw [hB]
        exact ih blocks _ (len + 64) hdl (by omega) hb hl
      · rw [if_neg (show ¬ 64 ≤ data_len - len by omega)]
        obtain ⟨out, hout, hlenout, _, _, _⟩ :=
          copy_go_some data len 0 (data_len - len) 0 blocks.data (by omega) (by omega)
        rw [clone_from_slice_64, hout]
        refine ⟨({ len := data_len - len, data := out }, len, state), rfl, ?_, ?_⟩
        · show out.length = 64
          rw [hlenout, hb]
        · show data_len - len ≤ 63
          omega
    · rw [if_neg (show ¬ len < data_len by omega)]
      exact ⟨(blocks, len, state), rfl, hb, hl⟩

theorem process_blocks_go_congr (d1 d2 : List Nat) (data_len : Nat)
    (hag : ∀ j, j < data_len → d1[j]? = d2[j]?) :
    ∀ (fuel : Nat) (blocks : Blocks) (state : State5) (len : Nat),
      process_blocks_go d1 data_len fuel blocks state len
        = process_blocks_go d2 data_len fuel blocks state len := by
  intro fuel
  induction fuel with
  | zero =>
    intro blocks state len
    rw [process_blocks_go, process_blocks_go]
  | succ fuel ih =>
    intro blocks state len
    rw [process_blocks_go, process_blocks_go]
    rcases Nat.lt_or_ge len data_len with hlen | hlen
    · rw [if_pos hlen, if_pos hlen]
      dsimp only
      rcases le_or_lt 64 (data_len - len) with h64 | h64
      · rw [if_pos h64, if_pos h64,
          as_block_congr d1 d2 len (fun t ht1 ht2 => hag t (by omega))]
        rcases as_block d2 len with _ | B
        · rfl
        · dsimp only
          exact ih blocks _ (len + 64)
      · rw [if_neg (show ¬ 64 ≤ data_len - len by omega),
          if_neg (show ¬ 64 ≤ data_len - len by omega), clone_from_slice_64,
          clone_from_slice_64,
          copy_go_congr d1 d2 len 0 (data_len - len) 0 blocks.data
            (fun t ht1 ht2 => hag (len + t) (by omega))]
    · rw [if_neg (show ¬ len < data_len by omega), if_neg (show ¬ len < data_len by omega)]

theorem process_blocks_go_exact (data : List Nat) (data_len : Nat) :
    ∀ (fuel : Nat) (blocks : Blocks) (state : State5) (len : Nat),
      data_len ≤ data.length → data_len ≤ len + 64 * fuel →
      len ≤ data_len → 64 ∣ (data_len - len) →
      ∃ st2, process_blocks_go data data_len fuel blocks state len
        = some (blocks, data_len, st2) := by
  intro fuel
  induction fuel with
  | zero =>
    intro blocks state len hdl hf hle hdvd
    have : len = data_len := by omega
    subst this
    rw [process_blocks_go, if_neg (show ¬ len < len by omega)]
    exact ⟨state, rfl⟩
  | succ fuel ih =>
    intro blocks state len hdl hf hle hdvd
    rw [process_blocks_go]
    rcases Nat.lt_or_ge len data_len with hlen | hlen
    · rw [if_pos hlen]
      dsimp only
      obtain ⟨c, hc⟩ := hdvd
      have h64 : 64 ≤ data_len - len := by
        rcases c with _ | c
        · omega
        · omega
      rw [if_pos h64]
      obtain ⟨B, hB⟩ := as_block_some data len (by omega)
      rw [hB]
      refine ih blocks _ (len + 64) hdl (by omega) (by omega) ?_
      rcases c with _ | c
      · exact ((by omega : False)).elim
      · exact ⟨c, by omega⟩
    · rw [if_neg (show ¬ len < data_len by omega)]
      have : len = data_len := by omega
      subst this
      exact ⟨state, rfl⟩

/-!  The padded final block(s) built by `digest`. -/

theorem bit_length_bytes_length (bits : Nat) : (bit_length_bytes bits).length = 8 := rfl

theorem final_pad_length (blocks : Blocks) (z bits : Nat) (hb : blocks.data.length = 64)
    (hl : blocks.len ≤ 63) (hz : blocks.len ≤ z) :
    (final_pad blocks z bits).length = z + 9 := by
  simp only [final_pad, List.length_append, List.length_take, List.length_cons,
    List.length_replicate, bit_length_bytes_length, hb]
  omega

theorem take_length_eq (blocks : Blocks) (hb : blocks.data.length = 64) (hl : blocks.len ≤ 63) :
    (blocks.data.take blocks.len).length = blocks.len := by
  rw [List.length_take, hb]
  omega

theorem final_pad_get_tail (blocks : Blocks) (z bits j : Nat) (hb : blocks.data.length = 64)
    (hl : blocks.len ≤ 63) (hj : j < blocks.len) :
    (final_pad blocks z bits)[j]? = blocks.data[j]? := by
  rw [final_pad, List.getElem?_append_left (by rw [take_length_eq blocks hb hl]; omega),
    List.getElem?_take_of_lt hj]

theorem final_pad_get_marker (blocks : Blocks) (z bits : Nat) (hb : blocks.data.length = 64)
    (hl : blocks.len ≤ 63) :
    (final_pad blocks z bits)[blocks.len]? = some 0x80 := by
  rw [final_pad, List.getElem?_append_right (by rw [take_length_eq blocks hb hl]),
    take_length_eq blocks hb hl, Nat.sub_self, List.getElem?_cons_zero]

theorem final_pad_get_zero (blocks : Blocks) (z bits j : Nat) (hb : blocks.data.length = 64)
    (hl : blocks.len ≤ 63) (hj1 : blocks.len < j) (hj2 : j ≤ z) :
    (final_pad blocks z bits)[j]? = some 0 := by
  rw [final_pad, List.getElem?_append_right (by rw [take_length_eq blocks hb hl]; omega),
    take_length_eq blocks hb hl,
    show j - blocks.len = (j - blocks.len - 1) + 1 by omega, List.getElem?_cons_succ,
    List.getElem?_append_left (by rw [List.length_replicate]; omega),
    List.getElem?_replicate]
  rw [if_pos (by omega)]

theorem final_pad_get_bits (blocks : Blocks) (z bits j : Nat) (hb : blocks.data.length = 64)
    (hl : blocks.len ≤ 63) (hz : blocks.len ≤ z) (hj1 : z < j) :
    (final_pad blocks z bits)[j]? = (bit_length_bytes bits)[j - z - 1]? := by
  rw [final_pad, List.getElem?_append_right (by rw [take_length_eq blocks hb hl]; omega),
    take_length_eq blocks hb hl,
    show j - blocks.len = (j - blocks.len - 1) + 1 by omega, List.getElem?_cons_succ,
    List.getElem?_append_right (by rw [List.length_replicate]; omega),
    List.length_replicate,
    show j - blocks.len - 1 - (z - blocks.len) = j - z - 1 by omega]

theorem digest_pad_single (state : State5) (len : Nat) (blocks : Blocks)
    (hb : blocks.data.length = 64) (hl : blocks.len ≤ 63) (h56 : blocks.len < 56) :
    ∃ B, as_block (final_pad blocks 55 (((len + blocks.len) * 8) % 2 ^ 64)) 0 = some B ∧
      digest state len blocks = some ⟨process_state state B⟩ := by
  obtain ⟨last1, h1, h1len, h1below, h1mid, h1above⟩ :=
    copy_go_some blocks.data 0 0 blocks.len 0 (List.replicate 128 0)
      (by omega) (by rw [List.length_replicate]; omega)
  rw [List.length_replicate] at h1len
  have hbl128 : blocks.len < last1.length := by omega
  obtain ⟨last3, h3, h3len, h3below, h3mid, h3above⟩ :=
    copy_go_some (bit_length_bytes (((len + blocks.len) * 8) % 2 ^ 64)) 0 56 8 0
      (last1.set blocks.len 0x80)
      (by rw [bit_length_bytes_length]) (by rw [List.length_set]; omega)
  have hagree : ∀ t, 0 ≤ t → t < 0 + 64 →
      last3[t]? = (final_pad blocks 55 (((len + blocks.len) * 8) % 2 ^ 64))[t]? := by
    intro t _ ht
    rcases Nat.lt_trichotomy t blocks.len with hc | hc | hc
    · rw [h3below t (by omega), List.getElem?_set_ne (by omega),
        final_pad_get_tail blocks 55 _ t hb hl hc]
      have := h1mid t (by omega) (by omega)
      rw [show 0 + (t - 0) = t by omega] at this
      exact this
    · subst hc
      rw [h3below blocks.len (by omega), List.getElem?_set_self hbl128,
        final_pad_get_marker blocks 55 _ hb hl]
    · rcases Nat.lt_or_ge t 56 with h5 | h5
      · rw [h3below t (by omega), List.getElem?_set_ne (by omega),
          h1above t (by omega), List.getElem?_replicate, if_pos (by omega),
          final_pad_get_zero blocks 55 _ t hb hl hc (by omega)]
      · have := h3mid t (by omega) (by omega)
        rw [show 0 + (t - 56) = t - 56 by omega] at this
        rw [this, final_pad_get_bits blocks 55 _ t hb hl (by omega) (by omega),
          show t - 55 - 1 = t - 56 by omega]
  have hcongr := as_block_congr last3 _ 0 (by
    intro t ht1 ht2
    exact hagree t ht1 (by omega))
  obtain ⟨B, hB⟩ := as_block_some (final_pad blocks 55 (((len + blocks.len) * 8) % 2 ^ 64)) 0
    (by rw [final_pad_length blocks 55 _ hb hl (by omega)])
  refine ⟨B, hB, ?_⟩
  simp only [digest, clone_from_slice_128, clone_slice_128, h1,
    setC_some last1 blocks.len 0x80 hbl128, bit_length_bytes_length, if_pos h56,
    h3, hcongr, hB]

theorem digest_pad_double (state : State5) (len : Nat) (blocks : Blocks)
    (hb : blocks.data.length = 64) (hl : blocks.len ≤ 63) (h56 : 56 ≤ blocks.len) :
    ∃ B0 B1, as_block (final_pad blocks 119 (((len + blocks.len) * 8) % 2 ^ 64)) 0 = some B0 ∧
      as_block (final_pad blocks 119 (((len + blocks.len) * 8) % 2 ^ 64)) 64 = some B1 ∧
      digest state len blocks = some ⟨process_state (process_state state B0) B1⟩ := by
  obtain ⟨last1, h1, h1len, h1below, h1mid, h1above⟩ :=
    copy_go_some blocks.data 0 0 blocks.len 0 (List.replicate 128 0)
      (by omega) (by rw [List.length_replicate]; omega)
  rw [List.length_replicate] at h1len
  have hbl128 : blocks.len < last1.length := by omega
  obtain ⟨last3, h3, h3len, h3below, h3mid, h3above⟩ :=
    copy_go_some (bit_length_bytes (((len + blocks.len) * 8) % 2 ^ 64)) 0 120 8 0
      (last1.set blocks.len 0x80)
      (by rw [bit_length_bytes_length]) (by rw [List.length_set]; omega)
  have hagree : ∀ t, 0 ≤ t → t < 128 →
      last3[t]? = (final_pad blocks 119 (((len + blocks.len) * 8) % 2 ^ 64))[t]? := by
    intro t _ ht
    rcases Nat.lt_trichotomy t blocks.len with hc | hc | hc
    · rw [h3below t (by omega), List.getElem?_set_ne (by omega),
        final_pad_get_tail blocks 119 _ t hb hl hc]
      have := h1mid t (by omega) (by omega)
      rw [show 0 + (t - 0) = t by omega] at this
      exact this
    · subst hc
      rw [h3below blocks.len (by omega), List.getElem?_set_self hbl128,
        final_pad_get_marker blocks 119 _ hb hl]
    · rcases Nat.lt_or_ge t 120 with h5 | h5
      · rw [h3below t (by omega), List.getElem?_set_ne (by omega),
          h1above t (by omega), List.getElem?_replicate, if_pos (by omega),
          final_pad_get_zero blocks 119 _ t hb hl hc (by omega)]
      · have := h3mid t (by omega) (by omega)
        rw [show 0 + (t - 120) = t - 120 by omega] at this
        rw [this, final_pad_get_bits blocks 119 _ t hb hl (by omega) (by omega),
          show t - 119 - 1 = t - 120 by omega]
  have hcongr0 := as_block_congr last3 _ 0 (by
    intro t ht1 ht2
    exact hagree t ht1 (by omega))
  have hcongr64 := as_block_congr last3 _ 64 (by
    intro t ht1 ht2
    exact hagree t (by omega) (by omega))
  have hfplen : (final_pad blocks 119 (((len + blocks.len) * 8) % 2 ^ 64)).length = 128 := by
    rw [final_pad_length blocks 119 _ hb hl (by omega)]
  obtain ⟨B0, hB0⟩ := as_block_some (final_pad blocks 119 (((len + blocks.len) * 8) % 2 ^ 64)) 0
    (by rw [hfplen]; omega)
  obtain ⟨B1, hB1⟩ := as_block_some (final_pad blocks 119 (((len + blocks.len) * 8) % 2 ^ 64)) 64
    (by rw [hfplen])
  refine ⟨B0, B1, hB0, hB1, ?_⟩
  simp only [digest, clone_from_slice_128, clone_slice_128, h1,
    setC_some last1 blocks.len 0x80 hbl128, bit_length_bytes_length,
    if_neg (show ¬ blocks.len < 56 by omega), h3, hcongr0, hB0, hcongr64, hB1]

theorem digest_some (state : State5) (len : Nat) (blocks : Blocks)
    (hb : blocks.data.length = 64) (hl : blocks.len ≤ 63) :
    ∃ d, digest state len blocks = some d := by
  rcases Nat.lt_or_ge blocks.len 56 with h | h
  · obtain ⟨B, _, hd⟩ := digest_pad_single state len blocks hb hl h
    exact ⟨_, hd⟩
  · obtain ⟨B0, B1, _, _, hd⟩ := digest_pad_double state len blocks hb hl h
    exact ⟨_, hd⟩

theorem push_slice_ok (b : ConstSlice) (x : List Nat)
    (hfit : b.head + x.length ≤ b.data.length) :
    ∃ b2, ConstSlice.push_slice b x = some b2 ∧ b2.head = b.head + x.length ∧
      b2.data.length = b.data.length ∧
      (∀ j, j < b.head → b2.data[j]? = b.data[j]?) ∧
      (∀ j, j < x.length → b2.data[b.head + j]? = x[j]?) ∧
      (∀ j, b.head + x.length ≤ j → b2.data[j]? = b.data[j]?) := by
  obtain ⟨out, hout, hlen, hbelow, hmid, habove⟩ :=
    copy_go_some x 0 b.head x.length 0 b.data (by omega) (by omega)
  refine ⟨⟨out, b.head + x.length⟩, ?_, rfl, hlen, ?_, ?_, ?_⟩
  · simp only [ConstSlice.push_slice, ConstSlice.push_amount, hout]
  · intro j hj
    exact hbelow j (by omega)
  · intro j hj
    have h2 := hmid (b.head + j) (by omega) (by omega)
    rw [show 0 + (b.head + j - b.head) = j by omega] at h2
    exact h2
  · intro j hj
    exact habove j (by omega)

/-!  The claims. -/

set_option maxRecDepth 10000 in
/-- C2: known-answer tests: `sha1` of the empty byte sequence renders as
`da39a3ee5e6b4b0d3255bfef95601890afd80709`, and `sha1` of the 43-byte ASCII
input "The quick brown fox jumps over the lazy dog" renders as
`2fd4e1c67a2d28fced849ee1bb76e7391b93eb12`. -/
theorem c2_known_answers :
    (sha1 []).map Digest.to_hex = some "da39a3ee5e6b4b0d3255bfef95601890afd80709" ∧
    (sha1 fox_bytes).map Digest.to_hex = some "2fd4e1c67a2d28fced849ee1bb76e7391b93eb12" ∧
    fox_bytes.length = 43 := by
  refine ⟨by decide, by decide, by decide⟩

/-- C10: `sha1` is deterministic: identical input byte sequences produce
identical digests, identical 20-byte arrays and identical hex renderings. -/
theorem c10_deterministic (s t : List Nat) (h : s = t) :
    sha1 s = sha1 t ∧
    (sha1 s).map Digest.as_bytes = (sha1 t).map Digest.as_bytes ∧
    (sha1 s).map Digest.to_hex = (sha1 t).map Digest.to_hex := by
  subst h
  exact ⟨rfl, rfl, rfl⟩

theorem c10_deterministic_witness :
    sha1 [1, 2, 3] = sha1 [1, 2, 3] ∧
    (sha1 [1, 2, 3]).map Digest.as_bytes = (sha1 [1, 2, 3]).map Digest.as_bytes ∧
    (sha1 [1, 2, 3]).map Digest.to_hex = (sha1 [1, 2, 3]).map Digest.to_hex :=
  c10_deterministic [1, 2, 3] [1, 2, 3] rfl

/-- C9: `sha1` is total for every input byte sequence: the block splitting,
tail retention and padded final-block construction never index out of bounds,
so the embedding (where any out-of-bounds access yields `none`) always
returns `some` digest. -/
theorem c9_sha1_total (data : List Nat) : ∃ dg, sha1 data = some dg := by
  obtain ⟨out, hout, hlen64, hlen63⟩ :=
    process_blocks_go_some data data.length (data.length + 1)
      { len := 0, data := List.replicate 64 0 }
      (0x67452301, 0xefcdab89, 0x98badcfe, 0x10325476, 0xc3d2e1f0) 0
      (Nat.le_refl _) (by omega) (by rw [List.length_replicate])
      (by show (0 : Nat) ≤ 63; omega)
  rcases out with ⟨blocks2, len2, state2⟩
  obtain ⟨d, hd⟩ := digest_some state2 len2 blocks2 hlen64 hlen63
  refine ⟨d, ?_⟩
  simp only [sha1, process_blocks, hout]
  exact hd

theorem hex_char_mem (n : Nat) (h : n < 16) : hex_char n ∈ "0123456789abcdef".toList := by
  interval_cases n <;> decide

theorem hex8_chars (w : Nat) (c : Char) (hc : c ∈ hex8 w) :
    c ∈ "0123456789abcdef".toList := by
  simp only [hex8, List.mem_cons, List.not_mem_nil, or_false] at hc
  rcases hc with h | h | h | h | h | h | h | h <;>
    (subst h; exact hex_char_mem _ (Nat.mod_lt _ (by omega)))

/-- C5: the digest of any byte sequence renders via `as_bytes` as exactly 20
bytes, big-endian (4 bytes per word, most significant first, words in order),
and its display rendering is exactly 40 characters, all lowercase hex digits
(each word zero-padded to 8 digits, words concatenated in order). -/
theorem c5_digest_rendering (s : List Nat) (dg : Digest) (h : sha1 s = some dg) :
    (Digest.as_bytes dg).length = 20 ∧
    (Digest.to_hex dg).length = 40 ∧
    (∀ c ∈ (Digest.to_hex dg).toList, c ∈ "0123456789abcdef".toList) ∧
    Digest.as_bytes dg =
      [(dg.data.1 >>> 24) % 256, (dg.data.1 >>> 16) % 256, (dg.data.1 >>> 8) % 256,
        (dg.data.1 >>> 0) % 256,
        (dg.data.2.1 >>> 24) % 256, (dg.data.2.1 >>> 16) % 256, (dg.data.2.1 >>> 8) % 256,
        (dg.data.2.1 >>> 0) % 256,
        (dg.data.2.2.1 >>> 24) % 256, (dg.data.2.2.1 >>> 16) % 256, (dg.data.2.2.1 >>> 8) % 256,
        (dg.data.2.2.1 >>> 0) % 256,
        (dg.data.2.2.2.1 >>> 24) % 256, (dg.data.2.2.2.1 >>> 16) % 256,
        (dg.data.2.2.2.1 >>> 8) % 256, (dg.data.2.2.2.1 >>> 0) % 256,
        (dg.data.2.2.2.2 >>> 24) % 256, (dg.data.2.2.2.2 >>> 16) % 256,
        (dg.data.2.2.2.2 >>> 8) % 256, (dg.data.2.2.2.2 >>> 0) % 256] ∧
    Digest.to_hex dg = String.mk (hex8 dg.data.1 ++ hex8 dg.data.2.1 ++ hex8 dg.data.2.2.1
      ++ hex8 dg.data.2.2.2.1 ++ hex8 dg.data.2.2.2.2) := by
  rcases dg with ⟨⟨d0, d1, d2, d3, d4⟩⟩
  refine ⟨rfl, rfl, ?_, rfl, rfl⟩
  intro c hc
  have hc2 : c ∈ hex8 d0 ++ (hex8 d1 ++ (hex8 d2 ++ (hex8 d3 ++ hex8 d4))) := hc
  simp only [List.mem_append] at hc2
  rcases hc2 with h | h | h | h | h <;> exact hex8_chars _ c h

theorem c5_digest_rendering_witness :
    ((Digest.as_bytes ⟨(0xda39a3ee, 0x5e6b4b0d, 0x3255bfef, 0x95601890, 0xafd80709)⟩).length = 20 ∧
    (Digest.to_hex ⟨(0xda39a3ee, 0x5e6b4b0d, 0x3255bfef, 0x95601890, 0xafd80709)⟩).length = 40 ∧
    (∀ c ∈ (Digest.to_hex ⟨(0xda39a3ee, 0x5e6b4b0d, 0x3255bfef, 0x95601890, 0xafd80709)⟩).toList,
      c ∈ "0123456789abcdef".toList) ∧
    Digest.as_bytes ⟨(0xda39a3ee, 0x5e6b4b0d, 0x3255bfef, 0x95601890, 0xafd80709)⟩ =
      [(0xda39a3ee >>> 24) % 256, (0xda39a3ee >>> 16) % 256, (0xda39a3ee >>> 8) % 256,
        (0xda39a3ee >>> 0) % 256,
        (0x5e6b4b0d >>> 24) % 256, (0x5e6b4b0d >>> 16) % 256, (0x5e6b4b0d >>> 8) % 256,
        (0x5e6b4b0d >>> 0) % 256,
        (0x3255bfef >>> 24) % 256, (0x3255bfef >>> 16) % 256, (0x3255bfef >>> 8) % 256,
        (0x3255bfef >>> 0) % 256,
        (0x95601890 >>> 24) % 256, (0x95601890 >>> 16) % 256, (0x95601890 >>> 8) % 256,
        (0x95601890 >>> 0) % 256,
        (0xafd80709 >>> 24) % 256, (0xafd80709 >>> 16) % 256, (0xafd80709 >>> 8) % 256,
        (0xafd80709 >>> 0) % 256] ∧
    Digest.to_hex ⟨(0xda39a3ee, 0x5e6b4b0d, 0x3255bfef, 0x95601890, 0xafd80709)⟩ =
      String.mk (hex8 0xda39a3ee ++ hex8 0x5e6b4b0d ++ hex8 0x3255bfef
        ++ hex8 0x95601890 ++ hex8 0xafd80709)) :=
  c5_digest_rendering [] ⟨(0xda39a3ee, 0x5e6b4b0d, 0x3255bfef, 0x95601890, 0xafd80709)⟩
    (by set_option maxRecDepth 10000 in decide)

set_option maxRecDepth 10000 in
/-- C6 counterexample: on the freshly created empty buffer, `as_slice` returns
the full backing array (1024 bytes), not the 0 bytes written so far, so the
claim that `as_slice` has length `len` fails. -/
theorem c6_counterexample :
    ¬ ((ConstSlice.as_slice ConstSlice.new).length = ConstSlice.len ConstSlice.new) := by
  decide

/-- C6 (amended): `as_slice` returns the whole fixed-capacity backing array:
for a buffer with the capacity invariant, it equals `b.data` and has length
`BUFFER_SIZE` (1024), with the written contents occupying the first `b.len()`
bytes of it. -/
theorem c6_as_slice_whole (b : ConstSlice) (h : b.data.length = BUFFER_SIZE) :
    ConstSlice.as_slice b = b.data ∧ (ConstSlice.as_slice b).length = BUFFER_SIZE :=
  ⟨rfl, h⟩

set_option maxRecDepth 10000 in
theorem c6_as_slice_whole_witness :
    ConstSlice.as_slice ConstSlice.new = ConstSlice.new.data ∧
    (ConstSlice.as_slice ConstSlice.new).length = BUFFER_SIZE :=
  c6_as_slice_whole ConstSlice.new (by rfl)

/-- C7: appending past the 1024-byte capacity is a defined, explicit error:
with the capacity invariant, if `b.len() + |x| > 1024` then `push_slice`
(and likewise `push_other`) hits the checked out-of-bounds write, modelled as
`none` (a Rust panic), rather than silently corrupting memory. -/
theorem c7_capacity_overflow (b : ConstSlice) (hlen : b.data.length = BUFFER_SIZE)
    (hhead : b.head ≤ BUFFER_SIZE) :
    (∀ x : List Nat, BUFFER_SIZE < b.head + x.length → ConstSlice.push_slice b x = none) ∧
    (∀ other : ConstSlice, other.head ≤ other.data.length →
      BUFFER_SIZE < b.head + other.head → ConstSlice.push_other b other = none) := by
  have hB : BUFFER_SIZE = 1024 := rfl
  constructor
  · intro x hover
    rw [ConstSlice.push_slice, ConstSlice.push_amount,
      copy_go_none x 0 b.head x.length 0 b.data (by omega) (by omega) (by omega)]
  · intro other hother hover
    rw [ConstSlice.push_other, ConstSlice.push_amount,
      copy_go_none other.as_slice 0 b.head other.len 0 b.data
        (by show 0 + 0 + other.head ≤ other.data.length; omega) (by omega)
        (by show b.data.length < b.head + 0 + other.head; omega)]

set_option maxRecDepth 10000 in
theorem c7_capacity_overflow_witness :
    ConstSlice.push_slice ConstSlice.new (List.replicate 1025 0) = none :=
  (c7_capacity_overflow ConstSlice.new (by rfl) (by show (0 : Nat) ≤ 1024; omega)).1
    (List.replicate 1025 0) (by show 1024 < 0 + (List.replicate 1025 (0 : Nat)).length; rw [List.length_replicate]; omega)

/-- C8: appending within capacity is append-only: the new length is the sum,
previously written bytes are unchanged, and the appended bytes follow at
indices `b.len()` onward. -/
theorem c8_append_frame (b : ConstSlice) (x : List Nat) (hcap : b.data.length = BUFFER_SIZE)
    (hfit : ConstSlice.len b + x.length ≤ BUFFER_SIZE) :
    ∃ b2, ConstSlice.push_slice b x = some b2 ∧
      ConstSlice.len b2 = ConstSlice.len b + x.length ∧
      (ConstSlice.as_slice b2).length = BUFFER_SIZE ∧
      (∀ j, j < ConstSlice.len b →
        (ConstSlice.as_slice b2)[j]? = (ConstSlice.as_slice b)[j]?) ∧
      (∀ j, j < x.length → (ConstSlice.as_slice b2)[ConstSlice.len b + j]? = x[j]?) := by
  have hlb : ConstSlice.len b = b.head := rfl
  obtain ⟨b2, h1, h2, h3, h4, h5, _⟩ := push_slice_ok b x (by rw [hcap]; omega)
  exact ⟨b2, h1, h2, by rw [ConstSlice.as_slice, h3, hcap], h4, h5⟩

set_option maxRecDepth 10000 in
theorem c8_append_frame_witness :
    ∃ b2, ConstSlice.push_slice ConstSlice.new [7, 8, 9] = some b2 ∧
      ConstSlice.len b2 = ConstSlice.len ConstSlice.new + ([7, 8, 9] : List Nat).length ∧
      (ConstSlice.as_slice b2).length = BUFFER_SIZE ∧
      (∀ j, j < ConstSlice.len ConstSlice.new →
        (ConstSlice.as_slice b2)[j]? = (ConstSlice.as_slice ConstSlice.new)[j]?) ∧
      (∀ j, j < ([7, 8, 9] : List Nat).length →
        (ConstSlice.as_slice b2)[ConstSlice.len ConstSlice.new + j]? = [7, 8, 9][j]?) :=
  c8_append_frame ConstSlice.new [7, 8, 9] (by rfl)
    (by show (0 : Nat) + 3 ≤ 1024; omega)

/-- C3: at finalization `digest` appends `0x80` after the retained tail and
zero-pads; a tail short enough that tail-plus-`0x80` fits within 56 bytes
yields exactly one 64-byte final block ending in the 8-byte big-endian bit
length and one compression call, otherwise (tail length at least 56) two
64-byte blocks zero-filled to 128 bytes with the length in the last 8 bytes
and two compression calls; an input of length an exact multiple of 64 still
reaches this padding with a zero-length tail. -/
theorem c3_finalization (state : State5) (len : Nat) (blocks : Blocks)
    (hb : blocks.data.length = 64) (hl : blocks.len ≤ 63) :
    (blocks.len < 56 →
      ∃ B, as_block (final_pad blocks 55 (((len + blocks.len) * 8) % 2 ^ 64)) 0 = some B ∧
        digest state len blocks = some ⟨process_state state B⟩) ∧
    (56 ≤ blocks.len →
      ∃ B0 B1,
        as_block (final_pad blocks 119 (((len + blocks.len) * 8) % 2 ^ 64)) 0 = some B0 ∧
        as_block (final_pad blocks 119 (((len + blocks.len) * 8) % 2 ^ 64)) 64 = some B1 ∧
        digest state len blocks = some ⟨process_state (process_state state B0) B1⟩) ∧
    (∀ (data : List Nat) (st : State5), 64 ∣ data.length →
      ∃ st2, process_blocks { len := 0, data := List.replicate 64 0 } data data.length st
        = some ({ len := 0, data := List.replicate 64 0 }, data.length, st2)) := by
  refine ⟨fun h => digest_pad_single state len blocks hb hl h,
    fun h => digest_pad_double state len blocks hb hl h,
    fun data st hdvd => ?_⟩
  rw [process_blocks]
  exact process_blocks_go_exact data data.length (data.length + 1) _ st 0
    (Nat.le_refl _) (by omega) (by omega) (by simpa using hdvd)

theorem c3_finalization_witness :
    (∃ B, as_block (final_pad { len := 0, data := List.replicate 64 0 } 55
        (((0 + ({ len := 0, data := List.replicate 64 0 } : Blocks).len) * 8) % 2 ^ 64)) 0
        = some B ∧
      digest (0, 0, 0, 0, 0) 0 { len := 0, data := List.replicate 64 0 }
        = some ⟨process_state (0, 0, 0, 0, 0) B⟩) ∧
    (∃ st2, process_blocks { len := 0, data := List.replicate 64 0 }
        (List.replicate 64 1) (List.replicate 64 1 : List Nat).length (0, 0, 0, 0, 0)
        = some ({ len := 0, data := List.replicate 64 0 },
            (List.replicate 64 1 : List Nat).length, st2)) := by
  have h := c3_finalization (0, 0, 0, 0, 0) 0 { len := 0, data := List.replicate 64 0 }
    (by rfl) (by show (0 : Nat) ≤ 63; omega)
  exact ⟨h.1 (by show (0 : Nat) < 56; omega),
    h.2.2 (List.replicate 64 1) (0, 0, 0, 0, 0) (by rw [List.length_replicate])⟩

/-- C4: for every byte sequence of length at most 1024, hashing through the
fixed-capacity buffer (`sha1_from_const_slice` of `ConstSlice.from_slice`)
gives the same digest as hashing the bytes directly with `sha1`. -/
theorem c4_const_slice_equiv (s : List Nat) (h : s.length ≤ 1024) :
    ∃ cs, ConstSlice.from_slice s = some cs ∧ sha1_from_const_slice cs = sha1 s := by
  obtain ⟨cs, hcs, hhead, hlen, hbelow, hmid, habove⟩ := push_slice_ok ConstSlice.new s
    (by show 0 + s.length ≤ (List.replicate BUFFER_SIZE 0).length
        rw [List.length_replicate]
        have hB : BUFFER_SIZE = 1024 := rfl
        omega)
  have hh2 : cs.head = s.length := by
    rw [hhead]
    show 0 + s.length = s.length
    omega
  have hagree : ∀ j, j < s.length → cs.data[j]? = s[j]? := by
    intro j hj
    have h2 := hmid j hj
    rw [show ConstSlice.new.head + j = 0 + j from rfl, show 0 + j = j by omega] at h2
    exact h2
  have hpb := process_blocks_go_congr cs.data s s.length hagree (s.length + 1)
    { len := 0, data := List.replicate 64 0 }
    (0x67452301, 0xefcdab89, 0x98badcfe, 0x10325476, 0xc3d2e1f0) 0
  refine ⟨cs, ?_, ?_⟩
  · rw [ConstSlice.from_slice]
    exact hcs
  · simp only [sha1_from_const_slice, sha1, ConstSlice.as_slice, ConstSlice.len,
      process_blocks, hh2, hpb]

theorem c4_const_slice_equiv_witness :
    ∃ cs, ConstSlice.from_slice [1, 2, 3] = some cs ∧
      sha1_from_const_slice cs = sha1 [1, 2, 3] :=
  c4_const_slice_equiv [1, 2, 3] (by show (3 : Nat) ≤ 1024; omega)
